import Mathlib

/-! # USB gadget / USB port HAL (Nexell): shallow embedding and verification

Embedding of `src/UsbGadget.cpp` (namespace `UsbGadget`) and `src/Usb.cpp`
(namespace `Usb`).

The kernel pseudo-filesystem and the listener transport are external: every
call that crosses that boundary is appended to a chronological log, and its
outcome (success / failure) is read from an environment `Env`, an arbitrary
function of the position in the log and of the call itself.  The code is
translated as explicit state passing over `World`.
-/

namespace UsbGadget

/-! ## Constants of `UsbGadget.cpp` -/

def DISCONNECT_WAIT_US : Nat := 100000
def PULL_UP_DELAY : Nat := 500000

def GADGET_PATH : String := "/config/usb_gadget/g1/"
def PULLUP_PATH : String := GADGET_PATH ++ "UDC"
def GADGET_NAME : String := "c0040000.dwc2otg"
def VENDOR_ID_PATH : String := GADGET_PATH ++ "idVendor"
def PRODUCT_ID_PATH : String := GADGET_PATH ++ "idProduct"
def DEVICE_CLASS_PATH : String := GADGET_PATH ++ "bDeviceClass"
def DEVICE_SUB_CLASS_PATH : String := GADGET_PATH ++ "bDeviceSubClass"
def DEVICE_PROTOCOL_PATH : String := GADGET_PATH ++ "bDeviceProtocol"
def DESC_USE_PATH : String := GADGET_PATH ++ "os_desc/use"
def CONFIG_PATH : String := GADGET_PATH ++ "configs/b.1/"
def FUNCTIONS_PATH : String := GADGET_PATH ++ "functions/"
def FUNCTION_NAME : String := "f"
def STRING_PATH : String := CONFIG_PATH ++ "strings/0x409/configuration"

def VENDOR_ID : String := "0x18d1"
def PRODUCT_ID_ADB : String := "0x4ee7"
def PRODUCT_ID_MTP : String := "0x4ee1"
def PRODUCT_ID_MTP_ADB : String := "0x4ee2"
def PRODUCT_ID_RNDIS : String := "0x4ee3"
def PRODUCT_ID_RNDIS_ADB : String := "0x4ee4"
def PRODUCT_ID_PTP : String := "0x4ee5"
def PRODUCT_ID_PTP_ADB : String := "0x4ee6"
def PRODUCT_ID_MIDI : String := "0x4ee8"
def PRODUCT_ID_MIDI_ADB : String := "0x4ee9"
def PRODUCT_ID_ACC : String := "0x2d00"
def PRODUCT_ID_ACC_ADB : String := "0x2d01"
def PRODUCT_ID_AUDIO_SRC : String := "0x2d02"
def PRODUCT_ID_AUDIO_SRC_ADB : String := "0x2d03"
def PRODUCT_ID_AUDIO_SRC_ACC : String := "0x2d04"
def PRODUCT_ID_AUDIO_SRC_ACC_ADB : String := "0x2d05"

/-! ## Interface types (`android.hardware.usb.gadget@1.0`)

The enumerators of the HIDL interface are not part of the repository; the
values below are those of the interface definition (`types.hal`), one bit per
function. -/

/-- Status values of the gadget interface. -/
inductive Status
  | SUCCESS
  | ERROR
  | FUNCTIONS_APPLIED
  | FUNCTIONS_NOT_APPLIED
  | CONFIGURATION_NOT_SUPPORTED
  deriving DecidableEq, Repr

namespace GadgetFunction
def NONE : Nat := 0
def ADB : Nat := 1
def ACCESSORY : Nat := 2
def MTP : Nat := 4
def MIDI : Nat := 8
def PTP : Nat := 16
def RNDIS : Nat := 32
def AUDIO_SOURCE : Nat := 64
end GadgetFunction

/-! ## The external boundary -/

/-- One call across the boundary of the process: a node write, a directory
operation, a sleep, or a call to the listener. -/
inductive Op
  /-- Call `WriteStringToFile(value, path)`. -/
  | write (value path : String)
  /-- Call `opendir(path)`. -/
  | opendir (path : String)
  /-- Call `remove(filepath)`. -/
  | remove (filepath : String)
  /-- Call `symlink(target, link)`. -/
  | symlink (target link : String)
  /-- Call `usleep(us)`. -/
  | usleep (us : Nat)
  /-- Call `callback->setCurrentUsbFunctionsCb(functions, status)`. -/
  | setCurrentUsbFunctionsCb (functions : Nat) (status : Status)
  /-- Call `callback->getCurrentUsbFunctionsCb(functions, status)`. -/
  | getCurrentUsbFunctionsCb (functions : Nat) (status : Status)
  deriving DecidableEq, Repr

/-- The environment decides the outcome of every call: `env n op` is `true`
when `op`, issued as the call number `n` (counting from 0), succeeds (for a
listener call: `ret.isOk()`). -/
abbrev Env := Nat → Op → Bool

/-- Observable state outside the process: the content of the text nodes, the
entries of each directory, and the chronological log of calls. -/
structure World where
  nodes : String → String
  dirs : String → List String
  log : List Op

/-- Process state of `UsbGadget` (the two members the code reads and writes). -/
structure Gadget where
  mCurrentUsbFunctions : Nat
  mCurrentUsbFunctionsApplied : Bool
  deriving DecidableEq, Repr

/-- Embedding of `android::base::WriteStringToFile(value, path)`: a successful write leaves
`value` in the node; a failed write leaves the node as it was. -/
def WriteStringToFile (env : Env) (value path : String) (w : World) : Bool × World :=
  if env w.log.length (Op.write value path) then
    (true, { w with nodes := fun p => if p = path then value else w.nodes p,
                    log := w.log ++ [Op.write value path] })
  else
    (false, { w with log := w.log ++ [Op.write value path] })

/-- Embedding of `opendir(path)`; `true` when the returned handle is not `NULL`. -/
def opendir (env : Env) (path : String) (w : World) : Bool × World :=
  (env w.log.length (Op.opendir path), { w with log := w.log ++ [Op.opendir path] })

/-- Embedding of `remove(path ++ name)`: returns 0 and deletes the entry `name` of the
directory `path`, or returns -1 and changes nothing. -/
def remove (env : Env) (path name : String) (w : World) : Int × World :=
  if env w.log.length (Op.remove (path ++ name)) then
    (0, { w with dirs := fun d => if d = path then (w.dirs d).filter (fun n => n ≠ name)
                                  else w.dirs d,
                 log := w.log ++ [Op.remove (path ++ name)] })
  else
    (-1, { w with log := w.log ++ [Op.remove (path ++ name)] })

/-- Embedding of `symlink(target, path ++ name)`: returns 0 and adds the entry `name` to
the directory `path`, or returns -1 and changes nothing. -/
def symlink (env : Env) (target path name : String) (w : World) : Int × World :=
  if env w.log.length (Op.symlink target (path ++ name)) then
    (0, { w with dirs := fun d => if d = path then w.dirs d ++ [name] else w.dirs d,
                 log := w.log ++ [Op.symlink target (path ++ name)] })
  else
    (-1, { w with log := w.log ++ [Op.symlink target (path ++ name)] })

/-- Embedding of `usleep(us)`. -/
def usleep (us : Nat) (w : World) : World :=
  { w with log := w.log ++ [Op.usleep us] }

/-- A call to the listener; the result is `ret.isOk()`. -/
def callListener (env : Env) (op : Op) (w : World) : Bool × World :=
  (env w.log.length op, { w with log := w.log ++ [op] })

/-! ## `UsbGadget.cpp` -/

/-- Test `strstr(d_name, FUNCTION_NAME) != NULL` with `FUNCTION_NAME = "f"`. -/
def containsFunctionName (d_name : String) : Bool :=
  d_name.toList.contains 'f'

/-- The `readdir` loop of `unlinkFunctions` over the entries of the directory:
entries whose name does not contain `FUNCTION_NAME` are skipped, the others are
removed, and the first failing `remove` ends the loop with its result. -/
def unlinkLoop (env : Env) (path : String) : List String → World → Int × World
  | [], w => (0, w)
  | d_name :: rest, w =>
    if containsFunctionName d_name = false then unlinkLoop env path rest w
    else
      let r := remove env path d_name w
      if r.1 ≠ 0 then (r.1, r.2)
      else unlinkLoop env path rest r.2

/-- Embedding of `unlinkFunctions(path)`. -/
def unlinkFunctions (env : Env) (path : String) (w : World) : Int × World :=
  let c := opendir env path w
  if c.1 = false then (-1, c.2)
  else unlinkLoop env path (c.2.dirs path) c.2

/-- Embedding of `UsbGadget::getCurrentUsbFunctions(callback)`; a failed call to the
listener is only logged. -/
def getCurrentUsbFunctions (env : Env) (g : Gadget) (w : World) : World :=
  (callListener env
    (Op.getCurrentUsbFunctionsCb g.mCurrentUsbFunctions
      (if g.mCurrentUsbFunctionsApplied then Status.FUNCTIONS_APPLIED
       else Status.FUNCTIONS_NOT_APPLIED)) w).2

/-- Embedding of `UsbGadget::tearDownGadget()`. -/
def tearDownGadget (env : Env) (w : World) : Status × World :=
  let w0 := (WriteStringToFile env "none" PULLUP_PATH w).2
  let r1 := WriteStringToFile env "0" DEVICE_CLASS_PATH w0
  if r1.1 = false then (Status.ERROR, r1.2) else
  let r2 := WriteStringToFile env "0" DEVICE_SUB_CLASS_PATH r1.2
  if r2.1 = false then (Status.ERROR, r2.2) else
  let r3 := WriteStringToFile env "0" DEVICE_PROTOCOL_PATH r2.2
  if r3.1 = false then (Status.ERROR, r3.2) else
  let r4 := WriteStringToFile env "0" DESC_USE_PATH r3.2
  if r4.1 = false then (Status.ERROR, r4.2) else
  let r5 := unlinkFunctions env CONFIG_PATH r4.2
  if r5.1 ≠ 0 then (Status.ERROR, r5.2) else
  (Status.SUCCESS, r5.2)

/-- Embedding of `linkFunction(function, index)`; the link path is
`FUNCTION_PATH ++ index = CONFIG_PATH ++ FUNCTION_NAME ++ index`. -/
def linkFunction (env : Env) (function : String) (index : Nat) (w : World) : Int × World :=
  let r := symlink env (FUNCTIONS_PATH ++ function) CONFIG_PATH
    (FUNCTION_NAME ++ toString index) w
  if r.1 ≠ 0 then (-1, r.2) else (0, r.2)

/-- Embedding of `setVidPid(vid, pid)`. -/
def setVidPid (env : Env) (vid pid : String) (w : World) : Status × World :=
  let r1 := WriteStringToFile env vid VENDOR_ID_PATH w
  if r1.1 = false then (Status.ERROR, r1.2) else
  let r2 := WriteStringToFile env pid PRODUCT_ID_PATH r1.2
  if r2.1 = false then (Status.ERROR, r2.2) else
  (Status.SUCCESS, r2.2)

open GadgetFunction in
/-- Embedding of `validateAndSetVidPid(functions)`: the `switch` on the exact value, in
the order of the source. -/
def validateAndSetVidPid (env : Env) (functions : Nat) (w : World) : Status × World :=
  if functions = MTP then setVidPid env VENDOR_ID PRODUCT_ID_MTP w
  else if functions = ADB ||| MTP then setVidPid env VENDOR_ID PRODUCT_ID_MTP_ADB w
  else if functions = RNDIS then setVidPid env VENDOR_ID PRODUCT_ID_RNDIS w
  else if functions = ADB ||| RNDIS then setVidPid env VENDOR_ID PRODUCT_ID_RNDIS_ADB w
  else if functions = PTP then setVidPid env VENDOR_ID PRODUCT_ID_PTP w
  else if functions = ADB ||| PTP then setVidPid env VENDOR_ID PRODUCT_ID_PTP_ADB w
  else if functions = ADB then setVidPid env VENDOR_ID PRODUCT_ID_ADB w
  else if functions = MIDI then setVidPid env VENDOR_ID PRODUCT_ID_MIDI w
  else if functions = ADB ||| MIDI then setVidPid env VENDOR_ID PRODUCT_ID_MIDI_ADB w
  else if functions = ACCESSORY then setVidPid env VENDOR_ID PRODUCT_ID_ACC w
  else if functions = ADB ||| ACCESSORY then setVidPid env VENDOR_ID PRODUCT_ID_ACC_ADB w
  else if functions = AUDIO_SOURCE then setVidPid env VENDOR_ID PRODUCT_ID_AUDIO_SRC w
  else if functions = ADB ||| AUDIO_SOURCE then
    setVidPid env VENDOR_ID PRODUCT_ID_AUDIO_SRC_ADB w
  else if functions = ACCESSORY ||| AUDIO_SOURCE then
    setVidPid env VENDOR_ID PRODUCT_ID_AUDIO_SRC_ACC w
  else if functions = ADB ||| ACCESSORY ||| AUDIO_SOURCE then
    setVidPid env VENDOR_ID PRODUCT_ID_AUDIO_SRC_ACC_ADB w
  else (Status.CONFIGURATION_NOT_SUPPORTED, w)

open GadgetFunction in
/-- Tail of `UsbGadget::setupFunctions` (source lines 302-331): the pull-up of
the gadget and the notification of the listener.  `callback` is `true` when
the listener handle is not null. -/
def setupPullUp (env : Env) (g : Gadget) (functions : Nat) (callback ffsEnabled : Bool)
    (w : World) : Status × Gadget × World :=
  if ffsEnabled = false then
    let r := WriteStringToFile env GADGET_NAME PULLUP_PATH w
    if r.1 = false then (Status.ERROR, g, r.2) else
    let g1 := { g with mCurrentUsbFunctionsApplied := true }
    let w1 := if callback then
        (callListener env (Op.setCurrentUsbFunctionsCb functions Status.SUCCESS) r.2).2
      else r.2
    (Status.SUCCESS, g1, w1)
  else if callback then
    let r := WriteStringToFile env GADGET_NAME PULLUP_PATH w
    let g1 := { g with mCurrentUsbFunctionsApplied := r.1 }
    let w1 := if r.1 then usleep PULL_UP_DELAY r.2 else r.2
    let w2 := (callListener env
      (Op.setCurrentUsbFunctionsCb functions
        (if g1.mCurrentUsbFunctionsApplied then Status.SUCCESS else Status.ERROR)) w1).2
    if functions &&& MTP ≠ 0 ∨ functions &&& PTP ≠ 0 then
      let r2 := WriteStringToFile env "1" DESC_USE_PATH w2
      if r2.1 = false then (Status.ERROR, g1, r2.2) else (Status.SUCCESS, g1, r2.2)
    else (Status.SUCCESS, g1, w2)
  else (Status.SUCCESS, g, w)

open GadgetFunction in
/-- Part of `UsbGadget::setupFunctions` from the ADB block on (lines 294-331);
`i` and `ffsEnabled` are the locals of the function. -/
def setupAdb (env : Env) (g : Gadget) (functions : Nat) (callback ffsEnabled : Bool)
    (i : Nat) (w : World) : Status × Gadget × World :=
  if functions &&& ADB ≠ 0 then
    let r := linkFunction env "ffs.adb" i w
    if r.1 ≠ 0 then (Status.ERROR, g, r.2)
    else setupPullUp env g functions callback true r.2
  else setupPullUp env g functions callback ffsEnabled w

open GadgetFunction in
/-- Part of `UsbGadget::setupFunctions` from the RNDIS block on (lines 288-331). -/
def setupRndis (env : Env) (g : Gadget) (functions : Nat) (callback ffsEnabled : Bool)
    (i : Nat) (w : World) : Status × Gadget × World :=
  if functions &&& RNDIS ≠ 0 then
    let r := linkFunction env "rndis.gs4" i w
    if r.1 ≠ 0 then (Status.ERROR, g, r.2)
    else setupAdb env g functions callback ffsEnabled (i + 1) r.2
  else setupAdb env g functions callback ffsEnabled i w

open GadgetFunction in
/-- Part of `UsbGadget::setupFunctions` from the AUDIO_SOURCE block on
(lines 282-331). -/
def setupAudioSource (env : Env) (g : Gadget) (functions : Nat) (callback ffsEnabled : Bool)
    (i : Nat) (w : World) : Status × Gadget × World :=
  if functions &&& AUDIO_SOURCE ≠ 0 then
    let r := linkFunction env "audio_source.gs3" i w
    if r.1 ≠ 0 then (Status.ERROR, g, r.2)
    else setupRndis env g functions callback ffsEnabled (i + 1) r.2
  else setupRndis env g functions callback ffsEnabled i w

open GadgetFunction in
/-- Part of `UsbGadget::setupFunctions` from the ACCESSORY block on
(lines 276-331). -/
def setupAccessory (env : Env) (g : Gadget) (functions : Nat) (callback ffsEnabled : Bool)
    (i : Nat) (w : World) : Status × Gadget × World :=
  if functions &&& ACCESSORY ≠ 0 then
    let r := linkFunction env "accessory.gs2" i w
    if r.1 ≠ 0 then (Status.ERROR, g, r.2)
    else setupAudioSource env g functions callback ffsEnabled (i + 1) r.2
  else setupAudioSource env g functions callback ffsEnabled i w

open GadgetFunction in
/-- Part of `UsbGadget::setupFunctions` from the MIDI block on (lines 270-331). -/
def setupMidi (env : Env) (g : Gadget) (functions : Nat) (callback ffsEnabled : Bool)
    (i : Nat) (w : World) : Status × Gadget × World :=
  if functions &&& MIDI ≠ 0 then
    let r := linkFunction env "midi.gs5" i w
    if r.1 ≠ 0 then (Status.ERROR, g, r.2)
    else setupAccessory env g functions callback ffsEnabled (i + 1) r.2
  else setupAccessory env g functions callback ffsEnabled i w

open GadgetFunction in
/-- Embedding of `UsbGadget::setupFunctions(functions, callback, timeout)`:
the MTP / PTP block (lines 247-268, `ffsEnabled = false`, `i = 1`), followed by
the rest of the function.  `timeout` is not used by the source. -/
def setupFunctions (env : Env) (g : Gadget) (functions : Nat) (callback : Bool)
    (_timeout : Nat) (w : World) : Status × Gadget × World :=
  if functions &&& MTP ≠ 0 then
    let r1 := WriteStringToFile env "MTP" STRING_PATH w
    if r1.1 = false then (Status.ERROR, g, r1.2) else
    let r2 := linkFunction env "mtp.gs0" 1 r1.2
    if r2.1 ≠ 0 then (Status.ERROR, g, r2.2)
    else setupMidi env g functions callback true 2 r2.2
  else if functions &&& PTP ≠ 0 then
    let r1 := WriteStringToFile env "PTP" STRING_PATH w
    if r1.1 = false then (Status.ERROR, g, r1.2) else
    let r2 := linkFunction env "ptp.gs1" 1 r1.2
    if r2.1 ≠ 0 then (Status.ERROR, g, r2.2)
    else setupMidi env g functions callback true 2 r2.2
  else setupMidi env g functions callback false 1 w

/-- The `error:` label of `UsbGadget::setCurrentUsbFunctions`: the listener,
when there is one, is told `status`. -/
def setCurrentUsbFunctionsError (env : Env) (g : Gadget) (functions : Nat) (callback : Bool)
    (status : Status) (w : World) : Gadget × World :=
  if callback = false then (g, w)
  else (g, (callListener env (Op.setCurrentUsbFunctionsCb functions status) w).2)

/-- Embedding of `UsbGadget::setCurrentUsbFunctions(functions, callback, timeout)`
for one caller (the lock `mLockSetCurrentFunction` is not represented). -/
def setCurrentUsbFunctions (env : Env) (g : Gadget) (functions : Nat) (callback : Bool)
    (timeout : Nat) (w : World) : Gadget × World :=
  let g0 : Gadget := { g with mCurrentUsbFunctions := functions,
                              mCurrentUsbFunctionsApplied := false }
  let t := tearDownGadget env w
  if t.1 ≠ Status.SUCCESS then setCurrentUsbFunctionsError env g0 functions callback t.1 t.2
  else
  let w1 := usleep DISCONNECT_WAIT_US t.2
  if functions = GadgetFunction.NONE then
    if callback = false then (g0, w1)
    else (g0, (callListener env (Op.setCurrentUsbFunctionsCb functions Status.SUCCESS) w1).2)
  else
  let v := validateAndSetVidPid env functions w1
  if v.1 ≠ Status.SUCCESS then setCurrentUsbFunctionsError env g0 functions callback v.1 v.2
  else
  let s := setupFunctions env g0 functions callback timeout v.2
  if s.1 ≠ Status.SUCCESS then
    setCurrentUsbFunctionsError env s.2.1 functions callback s.1 s.2.2
  else (s.2.1, s.2.2)

end UsbGadget

namespace Usb

/-! ## Constants of `Usb.cpp` -/

def GADGET_PATH : String := "/sys/devices/platform/c0000000.soc/"
def GADGET_NAME : String := "c0040000.dwc2otg"
def PULL_PATH : String := GADGET_PATH ++ GADGET_NAME
def MODE_CHANGE : String := PULL_PATH ++ "/sel_dr_mode"

/-! ## Interface types (`android.hardware.usb@1.0` and `@1.1`)

The enumerators are those of the HIDL interface definition, which is not part
of the repository. -/

/-- Status values of the port interface. -/
inductive Status
  | SUCCESS
  | ERROR
  | INVALID_ARGUMENT
  | UNRECOGNIZED_MODE
  deriving DecidableEq, Repr

/-- Kind of role a `PortRole` speaks about. -/
inductive PortRoleType
  | DATA_ROLE
  | POWER_ROLE
  | MODE
  deriving DecidableEq, Repr

/-- Data role of the port. -/
inductive PortDataRole
  | NONE
  | HOST
  | DEVICE
  | NUM_DATA_ROLES
  deriving DecidableEq, Repr

/-- Power role of the port. -/
inductive PortPowerRole
  | NONE
  | SOURCE
  | SINK
  | NUM_POWER_ROLES
  deriving DecidableEq, Repr

/-- Port mode of the 1.0 interface. -/
inductive PortMode
  | NONE
  | UFP
  | DFP
  | DRP
  | NUM_MODES
  deriving DecidableEq, Repr

/-- Numeric value of a data role (`static_cast<uint32_t>`). -/
def PortDataRole.toNat : PortDataRole → Nat
  | .NONE => 0
  | .HOST => 1
  | .DEVICE => 2
  | .NUM_DATA_ROLES => 3

/-- Numeric value of a power role (`static_cast<uint32_t>`). -/
def PortPowerRole.toNat : PortPowerRole → Nat
  | .NONE => 0
  | .SOURCE => 1
  | .SINK => 2
  | .NUM_POWER_ROLES => 3

namespace PortMode_1_1
def NONE : Nat := 0
def UFP : Nat := 1
def DFP : Nat := 2
def DRP : Nat := 3
end PortMode_1_1

/-- The `PortRole` of a request: the kind of role and its numeric value. -/
structure PortRole where
  type : PortRoleType
  role : Nat
  deriving DecidableEq, Repr

/-- Port status of the 1.0 interface. -/
structure PortStatus where
  portName : String
  currentDataRole : PortDataRole
  currentPowerRole : PortPowerRole
  currentMode : PortMode
  canChangeMode : Bool
  canChangeDataRole : Bool
  canChangePowerRole : Bool
  supportedModes : PortMode
  deriving DecidableEq, Repr

/-- Port status of the 1.1 interface. -/
structure PortStatus_1_1 where
  status : PortStatus
  supportedModes : Nat
  currentMode : Nat
  deriving DecidableEq, Repr

/-- A value-initialised `PortStatus`, as `hidl_vec::resize` creates it. -/
def PortStatus.zero : PortStatus :=
  { portName := "", currentDataRole := .NONE, currentPowerRole := .NONE,
    currentMode := .NONE, canChangeMode := false, canChangeDataRole := false,
    canChangePowerRole := false, supportedModes := .NONE }

/-- A value-initialised `PortStatus_1_1`, as `hidl_vec::resize` creates it. -/
def PortStatus_1_1.zero : PortStatus_1_1 :=
  { status := PortStatus.zero, supportedModes := 0, currentMode := 0 }

/-- Capability of the registered listener: `IUsbCallback::castFrom` yields a
non-null 1.1 handle exactly for `extended`. -/
inductive ListenerKind
  | base
  | extended
  deriving DecidableEq, Repr

/-- Process state of `Usb`: the registered listener, if any. -/
structure UsbState where
  mCallback_1_0 : Option ListenerKind
  deriving DecidableEq, Repr

/-! ## The external boundary -/

/-- One call across the boundary of the process. -/
inductive Op
  /-- Call `fopen(filename, mode)`. -/
  | fopen (filename mode : String)
  /-- Call `fputs(s, fp)` followed by `fclose(fp)` on the node `filename`. -/
  | fputs (s filename : String)
  /-- Call `getline(&line, &len, fp)` on the node `filename`. -/
  | getline (filename : String)
  /-- Call `mCallback_1_0->notifyRoleSwitchStatus(portName, newRole, status)`. -/
  | notifyRoleSwitchStatus (portName : String) (newRole : PortRole) (status : Status)
  /-- Call `mCallback_1_0->notifyPortStatusChange(currentPortStatus, status)`. -/
  | notifyPortStatusChange (currentPortStatus : List PortStatus) (status : Status)
  /-- Call `callback_V1_1->notifyPortStatusChange_1_1(currentPortStatus_1_1, status)`. -/
  | notifyPortStatusChange_1_1 (currentPortStatus_1_1 : List PortStatus_1_1)
      (status : Status)
  deriving DecidableEq, Repr

/-- The environment: `ok n op` is the outcome of `op` issued as call number `n`
(`fopen`: the handle is not `NULL`; `fputs`: the result is not `EOF`;
`getline`: no read error; listener call: `ret.isOk()`), and `store n old s` is
the content the driver shows for a node that held `old` after the string `s`
was written to it by call number `n` (the hardware may refuse the value). -/
structure Env where
  ok : Nat → Op → Bool
  store : Nat → List Char → String → List Char

/-- Observable state outside the process: the bytes of each node and the
chronological log of calls. -/
structure World where
  nodes : String → List Char
  log : List Op

/-- Embedding of `fopen(filename, mode)`; `true` when the handle is not `NULL`. -/
def fopen (env : Env) (filename mode : String) (w : World) : Bool × World :=
  (env.ok w.log.length (Op.fopen filename mode),
   { w with log := w.log ++ [Op.fopen filename mode] })

/-- Embedding of `fputs(s, fp); fclose(fp)` on an open node: `true` when
`fputs` did not return `EOF`; the node then shows what the driver decides. -/
def fputs (env : Env) (s filename : String) (w : World) : Bool × World :=
  (env.ok w.log.length (Op.fputs s filename),
   { nodes := fun p => if p = filename then env.store w.log.length (w.nodes p) s
                       else w.nodes p,
     log := w.log ++ [Op.fputs s filename] })

/-- Bytes of the first line of a node, the line feed included. -/
def firstLine : List Char → List Char
  | [] => []
  | c :: cs => if c = '\n' then [c] else c :: firstLine cs

/-- Embedding of `getline(&line, &len, fp)` on a freshly opened node: the first line,
or `none` (the result -1) at end of file or on a read error. -/
def getline (env : Env) (filename : String) (w : World) : Option (List Char) × World :=
  (if env.ok w.log.length (Op.getline filename) = true ∧ w.nodes filename ≠ [] then
     some (firstLine (w.nodes filename))
   else none,
   { w with log := w.log ++ [Op.getline filename] })

/-- The C string held by a buffer: the bytes before the first NUL. -/
def cString (buf : List Char) : List Char :=
  buf.takeWhile (fun c => c ≠ Char.ofNat 0)

/-- The effect of `if ((pos = strchr(line, 0x0a)) != NULL) *pos = 0` followed by
`*contents = line`: the C string of the buffer up to its first line feed. -/
def stripLine (line : List Char) : String :=
  String.mk ((cString line).takeWhile (fun c => c ≠ '\n'))

/-- Embedding of `readFile(filename, contents)`: the result, the new value of
`*contents`, and the world. -/
def readFile (env : Env) (filename : String) (contents : String) (w : World) :
    Int × String × World :=
  let o := fopen env filename "r" w
  if o.1 = true then
    let r := getline env filename o.2
    match r.1 with
    | some line => (0, stripLine line, r.2)
    | none => (0, contents, r.2)
  else (-1, contents, o.2)

/-- Embedding of `convertRoletoString(role)`. -/
def convertRoletoString (role : PortRole) : String :=
  if role.type = PortRoleType.POWER_ROLE then
    if role.role = PortPowerRole.SOURCE.toNat then "source"
    else if role.role = PortPowerRole.SINK.toNat then "sink"
    else "none"
  else if role.type = PortRoleType.DATA_ROLE then
    if role.role = PortDataRole.HOST.toNat then "host"
    else if role.role = PortDataRole.DEVICE.toNat then "device"
    else "none"
  else if role.type = PortRoleType.MODE then
    if role.role = PortMode_1_1.UFP then "sink"
    else if role.role = PortMode_1_1.DFP then "source"
    else "none"
  else "none"

/-- Embedding of `getCurrentRole()`. -/
def getCurrentRole (env : Env) (w : World) : PortDataRole × World :=
  let r := readFile env MODE_CHANGE "" w
  if r.1 = 0 then
    if r.2.1 = "host" then (PortDataRole.HOST, r.2.2)
    else if r.2.1 = "device" then (PortDataRole.DEVICE, r.2.2)
    else (PortDataRole.NONE, r.2.2)
  else (PortDataRole.NONE, r.2.2)

/-- Embedding of `getPortStatusHelper(currentPortStatus_1_1, V1_0)`: the
writes go to element 0 of the vector. -/
def getPortStatusHelper (env : Env) (currentPortStatus_1_1 : List PortStatus_1_1)
    (V1_0 : Bool) (w : World) : Status × List PortStatus_1_1 × World :=
  let m := getCurrentRole env w
  if m.1 = PortDataRole.NONE then (Status.ERROR, currentPortStatus_1_1, m.2)
  else
    let v := currentPortStatus_1_1.modifyHead (fun p =>
      { p with status :=
          { p.status with
            portName := "otg",
            currentDataRole := m.1,
            currentPowerRole :=
              if m.1 = PortDataRole.DEVICE then PortPowerRole.SINK else PortPowerRole.SOURCE,
            currentMode := PortMode.DRP,
            canChangeMode := false,
            canChangeDataRole := true,
            canChangePowerRole := true } })
    if V1_0 then
      (Status.SUCCESS,
       v.modifyHead (fun p => { p with status := { p.status with supportedModes := PortMode.DRP } }),
       m.2)
    else
      (Status.SUCCESS,
       v.modifyHead (fun p =>
         { p with status := { p.status with supportedModes := PortMode.DRP },
                  supportedModes := PortMode_1_1.UFP ||| PortMode_1_1.DFP,
                  currentMode := PortMode_1_1.DRP }),
       m.2)

/-- A call to the listener; the result is `ret.isOk()`. -/
def callListener (env : Env) (op : Op) (w : World) : Bool × World :=
  (env.ok w.log.length op, { w with log := w.log ++ [op] })

/-- Embedding of `Usb::queryPortStatus()`. -/
def queryPortStatus (env : Env) (u : UsbState) (w : World) : World :=
  let currentPortStatus : List PortStatus := [PortStatus.zero]
  let currentPortStatus_1_1 : List PortStatus_1_1 := [PortStatus_1_1.zero]
  match u.mCallback_1_0 with
  | some k =>
    if k = ListenerKind.extended then
      let r := getPortStatusHelper env currentPortStatus_1_1 false w
      (callListener env (Op.notifyPortStatusChange_1_1 r.2.1 r.1) r.2.2).2
    else
      let r := getPortStatusHelper env currentPortStatus_1_1 true w
      let currentPortStatus := currentPortStatus.modifyHead
        (fun p => (r.2.1.head?.map (fun q => q.status)).getD p)
      (callListener env (Op.notifyPortStatusChange currentPortStatus r.1) r.2.2).2
  | none => w

/-- The role-switch part of `Usb::switchRole` (source lines 98-129): the value
of `roleSwitch` and the world. -/
def switchRoleWrite (env : Env) (newRole : PortRole) (w : World) : Bool × World :=
  let filename := MODE_CHANGE
  if newRole.type = PortRoleType.DATA_ROLE then
    let o := fopen env filename "w" w
    if o.1 = true then
      let p := fputs env (convertRoletoString newRole) filename o.2
      if p.1 = true then
        let r := readFile env filename "" p.2
        if r.1 = 0 then
          if r.2.1 = convertRoletoString newRole then (true, r.2.2)
          else (false, r.2.2)
        else (false, r.2.2)
      else (false, p.2)
    else (false, o.2)
  else (false, w)

/-- Embedding of `Usb::switchRole(portName, newRole)`. -/
def switchRole (env : Env) (u : UsbState) (portName : String) (newRole : PortRole)
    (w : World) : World :=
  if MODE_CHANGE = "" then w
  else
    let s := switchRoleWrite env newRole w
    match u.mCallback_1_0 with
    | some _ =>
      let n := callListener env
        (Op.notifyRoleSwitchStatus portName newRole
          (if s.1 then Status.SUCCESS else Status.ERROR)) s.2
      if n.1 = false then n.2
      else queryPortStatus env u n.2
    | none => s.2

/-- Embedding of `Usb::setCallback(callback)`: both branches store the handle. -/
def setCallback (_u : UsbState) (callback : Option ListenerKind) : UsbState :=
  { mCallback_1_0 := callback }

end Usb

/-! ## Vocabulary of the statements -/

namespace UsbGadget

/-- The `(functions, status)` pairs handed to `setCurrentUsbFunctionsCb` in a
log, in chronological order. -/
def notifications : List Op → List (Nat × Status)
  | [] => []
  | Op.setCurrentUsbFunctionsCb f s :: l => (f, s) :: notifications l
  | _ :: l => notifications l

/-- The `(target, link)` pairs of the `symlink` calls of a log, in
chronological order, whether the call succeeded or not. -/
def linksOf : List Op → List (String × String)
  | [] => []
  | Op.symlink t l :: ops => (t, l) :: linksOf ops
  | _ :: ops => linksOf ops

/-- Calls on the pseudo-filesystem: node writes, directory opening, symlink
removal and link creation. -/
def Op.isNodeOp : Op → Bool
  | Op.write _ _ => true
  | Op.opendir _ => true
  | Op.remove _ => true
  | Op.symlink _ _ => true
  | _ => false

/-- The calls made after the log had length `n`. -/
def callsAfter (n : Nat) (w : World) : List Op := w.log.drop n

/-- The seven functions of the interface, as singleton sets. -/
def singletons : List Nat :=
  [GadgetFunction.MTP, GadgetFunction.PTP, GadgetFunction.ADB, GadgetFunction.MIDI,
   GadgetFunction.ACCESSORY, GadgetFunction.AUDIO_SOURCE, GadgetFunction.RNDIS]

/-- The function sets the identity table is claimed to accept: the seven
singletons, the ADB-augmented pair of each of the other six,
`{ACCESSORY, AUDIO_SOURCE}` and `{ADB, ACCESSORY, AUDIO_SOURCE}`. -/
def acceptedSets : List Nat :=
  singletons
    ++ (singletons.filter (fun f => f ≠ GadgetFunction.ADB)).map
         (fun f => GadgetFunction.ADB ||| f)
    ++ [GadgetFunction.ACCESSORY ||| GadgetFunction.AUDIO_SOURCE,
        GadgetFunction.ADB ||| GadgetFunction.ACCESSORY ||| GadgetFunction.AUDIO_SOURCE]

open GadgetFunction in
/-- The product ID that the `switch` of `validateAndSetVidPid` passes to
`setVidPid` for the value `functions`; `none` in the `default` case. -/
def productIdOf (functions : Nat) : Option String :=
  if functions = MTP then some PRODUCT_ID_MTP
  else if functions = ADB ||| MTP then some PRODUCT_ID_MTP_ADB
  else if functions = RNDIS then some PRODUCT_ID_RNDIS
  else if functions = ADB ||| RNDIS then some PRODUCT_ID_RNDIS_ADB
  else if functions = PTP then some PRODUCT_ID_PTP
  else if functions = ADB ||| PTP then some PRODUCT_ID_PTP_ADB
  else if functions = ADB then some PRODUCT_ID_ADB
  else if functions = MIDI then some PRODUCT_ID_MIDI
  else if functions = ADB ||| MIDI then some PRODUCT_ID_MIDI_ADB
  else if functions = ACCESSORY then some PRODUCT_ID_ACC
  else if functions = ADB ||| ACCESSORY then some PRODUCT_ID_ACC_ADB
  else if functions = AUDIO_SOURCE then some PRODUCT_ID_AUDIO_SRC
  else if functions = ADB ||| AUDIO_SOURCE then some PRODUCT_ID_AUDIO_SRC_ADB
  else if functions = ACCESSORY ||| AUDIO_SOURCE then some PRODUCT_ID_AUDIO_SRC_ACC
  else if functions = ADB ||| ACCESSORY ||| AUDIO_SOURCE then
    some PRODUCT_ID_AUDIO_SRC_ACC_ADB
  else none

/-- Calls that belong to teardown: the write of "none" to the pull-up node,
the writes of "0" to the three device-class nodes and to the
OS-descriptor-use node, the opening of the configuration directory and the
removal of one of its entries. -/
def Op.isTearDownCall : Op → Bool
  | Op.write v p =>
    (v = "none" && p = PULLUP_PATH) ||
    (v = "0" && (p = DEVICE_CLASS_PATH || p = DEVICE_SUB_CLASS_PATH ||
                 p = DEVICE_PROTOCOL_PATH || p = DESC_USE_PATH))
  | Op.opendir p => p = CONFIG_PATH
  | Op.remove _ => true
  | _ => false

/-- Calls that configure a gadget: a write to the vendor-ID or product-ID
node, the creation of a link, or the write of the controller name to the
pull-up node. -/
def Op.configures : Op → Bool
  | Op.write v p =>
    p = VENDOR_ID_PATH || p = PRODUCT_ID_PATH || (v = GADGET_NAME && p = PULLUP_PATH)
  | Op.symlink _ _ => true
  | _ => false

/-- The name of a function when its bit is requested. -/
def optName (functions bit : Nat) (name : String) : List String :=
  if functions &&& bit ≠ 0 then [name] else []

open GadgetFunction in
/-- The functions to link, in the fixed order: `mtp.gs0` if MTP is set,
otherwise `ptp.gs1` if PTP is set; then `midi.gs5`, `accessory.gs2`,
`audio_source.gs3`, `rndis.gs4` and `ffs.adb`, each only if requested. -/
def requestedFunctions (functions : Nat) : List String :=
  (if functions &&& MTP ≠ 0 then ["mtp.gs0"] else optName functions PTP "ptp.gs1") ++
  (optName functions MIDI "midi.gs5" ++
  (optName functions ACCESSORY "accessory.gs2" ++
  (optName functions AUDIO_SOURCE "audio_source.gs3" ++
  (optName functions RNDIS "rndis.gs4" ++
   optName functions ADB "ffs.adb"))))

/-- The link creations for `names` at the consecutive link names `f<i>`,
`f<i+1>`, ... of the configuration directory. -/
def linkCalls : Nat → List String → List Op
  | _, [] => []
  | i, name :: names =>
    Op.symlink (FUNCTIONS_PATH ++ name) (CONFIG_PATH ++ (FUNCTION_NAME ++ toString i))
      :: linkCalls (i + 1) names

open GadgetFunction in
/-- The write of the configuration string: "MTP" if MTP is requested,
otherwise "PTP" if PTP is requested, otherwise none. -/
def stringCalls (functions : Nat) : List Op :=
  if functions &&& MTP ≠ 0 then [Op.write "MTP" STRING_PATH]
  else if functions &&& PTP ≠ 0 then [Op.write "PTP" STRING_PATH]
  else []

/-- Link creations and writes to the configuration-string node. -/
def Op.isLinkOrString : Op → Bool
  | Op.symlink _ _ => true
  | Op.write _ p => p = STRING_PATH
  | _ => false

/-- The answer of the resolver for the product ID chosen by its `switch`. -/
def resolveWith (env : Env) (w : World) : Option String → Status × World
  | some pid => setVidPid env VENDOR_ID pid w
  | none => (Status.CONFIGURATION_NOT_SUPPORTED, w)

/-- How `setupFunctions`, called with a listener in the world `w`, has
notified the listener when it returns `r`: once when it returns SUCCESS; not
at all, or once followed by a failed write of "1" to the OS-descriptor-use
node of a set with MTP or PTP, when it returns ERROR. -/
def NotifiedBySetup (env : Env) (functions : Nat) (w : World)
    (r : Status × Gadget × World) : Prop :=
  ∃ ops, r.2.2.log = w.log ++ ops ∧
    ((r.1 = Status.SUCCESS ∧ ∃ s, notifications ops = [(functions, s)]) ∨
     (r.1 = Status.ERROR ∧ notifications ops = []) ∨
     (r.1 = Status.ERROR ∧ (∃ s, notifications ops = [(functions, s)]) ∧
       (functions &&& GadgetFunction.MTP ≠ 0 ∨ functions &&& GadgetFunction.PTP ≠ 0) ∧
       ∃ n, env n (Op.write "1" DESC_USE_PATH) = false))

/-- How `setupFunctions`, called in the world `w` with the state `g`, leaves
`applied` when it returns `r`: the requested set is kept, and `applied` is
true only if the controller name was written to the pull-up node with
success during the call, every notification made so far carries SUCCESS, and
the result is SUCCESS, or ERROR after a failed write of "1" to the
OS-descriptor-use node. -/
def AppliedBySetup (env : Env) (g : Gadget) (w : World) (r : Status × Gadget × World) : Prop :=
  ∃ ops, r.2.2.log = w.log ++ ops ∧
    r.2.1.mCurrentUsbFunctions = g.mCurrentUsbFunctions ∧
    (r.2.1.mCurrentUsbFunctionsApplied = true →
      (∃ pre post, ops = pre ++ Op.write GADGET_NAME PULLUP_PATH :: post ∧
        env (w.log.length + pre.length) (Op.write GADGET_NAME PULLUP_PATH) = true) ∧
      (∀ p ∈ notifications ops, p.2 = Status.SUCCESS) ∧
      (r.1 = Status.SUCCESS ∨
        (r.1 = Status.ERROR ∧ ∃ n, env n (Op.write "1" DESC_USE_PATH) = false)))

/-- The state of a gadget on which `{ADB, MTP}` is applied. -/
def gadgetMtpAdb : Gadget := { mCurrentUsbFunctions := 5, mCurrentUsbFunctionsApplied := true }

/-- An environment in which every call succeeds. -/
def envAllOk : Env := fun _ _ => true

/-- An environment in which every call succeeds but the write of "1" to the
OS-descriptor-use node. -/
def envDescUseFails : Env := fun _ op => decide (op ≠ Op.write "1" DESC_USE_PATH)

/-- An environment in which every call succeeds but the write of "none" to
the pull-up node. -/
def envPullDownFails : Env := fun _ op => decide (op ≠ Op.write "none" PULLUP_PATH)

/-- A torn-down gadget: empty nodes, a configuration directory holding only
its `strings` entry, and no call made yet. -/
def worldIdle : World :=
  { nodes := fun _ => "", dirs := fun d => if d = CONFIG_PATH then ["strings"] else [],
    log := [] }

/-- A bound gadget with MTP and ADB linked. -/
def worldMtpAdb : World :=
  { nodes := fun p => if p = PULLUP_PATH then GADGET_NAME else "",
    dirs := fun d => if d = CONFIG_PATH then ["strings", "f1", "f2"] else [],
    log := [] }

/-- The state of `UsbGadget` after construction. -/
def gadgetInit : Gadget := { mCurrentUsbFunctions := 0, mCurrentUsbFunctionsApplied := false }

end UsbGadget

namespace Usb

/-- The `(portName, newRole, status)` triples handed to
`notifyRoleSwitchStatus` in a log, in chronological order. -/
def roleSwitchNotifications : List Op → List (String × PortRole × Status)
  | [] => []
  | Op.notifyRoleSwitchStatus n r s :: l => (n, r, s) :: roleSwitchNotifications l
  | _ :: l => roleSwitchNotifications l

/-- Number of port-status notifications (either form) in a log. -/
def portStatusNotifications : List Op → Nat
  | [] => 0
  | Op.notifyPortStatusChange _ _ :: l => portStatusNotifications l + 1
  | Op.notifyPortStatusChange_1_1 _ _ :: l => portStatusNotifications l + 1
  | _ :: l => portStatusNotifications l

/-- The calls made after the log had length `n`. -/
def callsAfter (n : Nat) (w : World) : List Op := w.log.drop n

/-- The text read back from a node: its first line as a C string, without the
line feed. -/
def lineText (content : List Char) : String := stripLine (firstLine content)

/-- The role write of `newRole` issued in the world `w` is verified: the node
could be opened for writing, `fputs` of the string form of the role completed,
the node could be opened for reading, a line was read back, and the text of
that line equals the written string. -/
def roleWriteVerified (env : Env) (newRole : PortRole) (w : World) : Prop :=
  env.ok w.log.length (Op.fopen MODE_CHANGE "w") = true ∧
  env.ok (w.log.length + 1) (Op.fputs (convertRoletoString newRole) MODE_CHANGE) = true ∧
  env.ok (w.log.length + 2) (Op.fopen MODE_CHANGE "r") = true ∧
  (env.ok (w.log.length + 3) (Op.getline MODE_CHANGE) = true ∧
    env.store (w.log.length + 1) (w.nodes MODE_CHANGE) (convertRoletoString newRole) ≠ []) ∧
  lineText (env.store (w.log.length + 1) (w.nodes MODE_CHANGE) (convertRoletoString newRole)) =
    convertRoletoString newRole

instance (env : Env) (newRole : PortRole) (w : World) :
    Decidable (roleWriteVerified env newRole w) := by
  unfold roleWriteVerified; infer_instance

/-- A read of the role node issued in the world `w` yields a line: the node
can be opened and `getline` returns a line. -/
def roleReadOk (env : Env) (w : World) : Prop :=
  env.ok w.log.length (Op.fopen MODE_CHANGE "r") = true ∧
  env.ok (w.log.length + 1) (Op.getline MODE_CHANGE) = true ∧ w.nodes MODE_CHANGE ≠ []

instance (env : Env) (w : World) : Decidable (roleReadOk env w) := by
  unfold roleReadOk; infer_instance

/-- The port entry reported for a data role and a power role: port "otg",
mode DRP, `canChangeMode = false`, `canChangeDataRole = true`,
`canChangePowerRole = true`; the 1.1 fields are filled for a 1.1 listener. -/
def portEntry (dataRole : PortDataRole) (powerRole : PortPowerRole) (V1_0 : Bool) :
    PortStatus_1_1 :=
  { status :=
      { portName := "otg", currentDataRole := dataRole, currentPowerRole := powerRole,
        currentMode := PortMode.DRP, canChangeMode := false, canChangeDataRole := true,
        canChangePowerRole := true, supportedModes := PortMode.DRP },
    supportedModes := if V1_0 then 0 else 3,
    currentMode := if V1_0 then 0 else 3 }

/-- The string form of a requested data role, in the words of the
specification: "host" for HOST (1) and "device" for DEVICE (2); for any other
value the string is "none". -/
def dataRoleString (role : Nat) : String :=
  if role = 1 then "host" else if role = 2 then "device" else "none"

/-- The first line of the text of a node with its trailing line feed
stripped: the characters before the first line feed.  The text of a node ends
at its first NUL byte, if it holds one. -/
def firstLineStripped (content : List Char) : String :=
  String.mk (content.takeWhile (fun c => c ≠ '\n' ∧ c ≠ Char.ofNat 0))

/-- The write of the string `written` to the role node, issued in the world
`w`, took effect: the node could be opened for writing, `fputs` of `written`
completed, the node could be opened for reading, a line was read back from
it, and the first line read back, its line feed stripped, is exactly
`written`. -/
def roleSwitchVerified (env : Env) (written : String) (w : World) : Prop :=
  env.ok w.log.length (Op.fopen MODE_CHANGE "w") = true ∧
  env.ok (w.log.length + 1) (Op.fputs written MODE_CHANGE) = true ∧
  env.ok (w.log.length + 2) (Op.fopen MODE_CHANGE "r") = true ∧
  env.ok (w.log.length + 3) (Op.getline MODE_CHANGE) = true ∧
  env.store (w.log.length + 1) (w.nodes MODE_CHANGE) written ≠ [] ∧
  firstLineStripped (env.store (w.log.length + 1) (w.nodes MODE_CHANGE) written) = written

instance (env : Env) (written : String) (w : World) :
    Decidable (roleSwitchVerified env written w) := by
  unfold roleSwitchVerified; infer_instance

/-- An environment in which every call succeeds but the hardware refuses the
written value: the node keeps what it held. -/
def envWriteRefused : Env := { ok := fun _ _ => true, store := fun _ old _ => old }

/-- An environment in which every call succeeds and the node shows the written
string without a line feed. -/
def envNoLineFeed : Env := { ok := fun _ _ => true, store := fun _ _ s => s.toList }

/-- An environment in which every call succeeds and the node shows the written
string followed by the letter s and a line feed. -/
def envLongerLine : Env :=
  { ok := fun _ _ => true, store := fun _ _ s => s.toList ++ ['s', '\n'] }

/-- An environment in which the role node cannot be opened for writing; every
other call succeeds. -/
def envOpenFails : Env :=
  { ok := fun _ op => decide (op ≠ Op.fopen MODE_CHANGE "w"),
    store := fun _ _ s => s.toList ++ ['\n'] }

/-- A port in device mode, no call made yet. -/
def worldDevice : World := { nodes := fun _ => "device\n".toList, log := [] }

/-- The request of the data role HOST. -/
def roleHost : PortRole := { type := PortRoleType.DATA_ROLE, role := PortDataRole.HOST.toNat }

/-- An environment in which every call succeeds and the node shows the written
string followed by a line feed. -/
def envAllOk : Env := { ok := fun _ _ => true, store := fun _ _ s => s.toList ++ ['\n'] }

/-- An environment in which every call succeeds but the calls to
`notifyRoleSwitchStatus`, and the node shows the written string followed by a
line feed. -/
def envNotifyFails : Env :=
  { ok := fun _ op =>
      match op with
      | Op.notifyRoleSwitchStatus _ _ _ => false
      | _ => true,
    store := fun _ _ s => s.toList ++ ['\n'] }

/-- A port in host mode, no call made yet. -/
def worldHost : World := { nodes := fun _ => "host\n".toList, log := [] }

/-- The request of the data role DEVICE. -/
def roleDevice : PortRole := { type := PortRoleType.DATA_ROLE, role := PortDataRole.DEVICE.toNat }

end Usb

/-! ## Theorems about `UsbGadget.cpp` -/

namespace UsbGadget

theorem acceptedSets_eq :
    acceptedSets = [4, 16, 1, 8, 2, 64, 32, 5, 17, 9, 3, 65, 33, 66, 67] := by decide

theorem setVidPid_of_ok (env : Env) (vid pid : String) (w : World)
    (hvid : ∀ n v, env n (Op.write v VENDOR_ID_PATH) = true)
    (hpid : ∀ n v, env n (Op.write v PRODUCT_ID_PATH) = true) :
    setVidPid env vid pid w =
      (Status.SUCCESS,
       { w with nodes := fun p => if p = PRODUCT_ID_PATH then pid
                                  else if p = VENDOR_ID_PATH then vid else w.nodes p,
                log := w.log ++ [Op.write vid VENDOR_ID_PATH, Op.write pid PRODUCT_ID_PATH] }) := by
  simp [setVidPid, WriteStringToFile, hvid, hpid]

theorem validateAndSetVidPid_of_not_accepted (env : Env) (functions : Nat) (w : World)
    (h : functions ∉ acceptedSets) :
    validateAndSetVidPid env functions w = (Status.CONFIGURATION_NOT_SUPPORTED, w) := by
  rw [acceptedSets_eq] at h
  simp only [List.mem_cons, List.mem_singleton, not_or, List.not_mem_nil, not_false_eq_true,
    and_true] at h
  obtain ⟨h1, h2, h3, h4, h5, h6, h7, h8, h9, h10, h11, h12, h13, h14, h15⟩ := h
  have e1 : GadgetFunction.ADB ||| GadgetFunction.MTP = 5 := by decide
  have e2 : GadgetFunction.ADB ||| GadgetFunction.RNDIS = 33 := by decide
  have e3 : GadgetFunction.ADB ||| GadgetFunction.PTP = 17 := by decide
  have e4 : GadgetFunction.ADB ||| GadgetFunction.MIDI = 9 := by decide
  have e5 : GadgetFunction.ADB ||| GadgetFunction.ACCESSORY = 3 := by decide
  have e6 : GadgetFunction.ADB ||| GadgetFunction.AUDIO_SOURCE = 65 := by decide
  have e7 : GadgetFunction.ACCESSORY ||| GadgetFunction.AUDIO_SOURCE = 66 := by decide
  have e8 : GadgetFunction.ADB ||| GadgetFunction.ACCESSORY ||| GadgetFunction.AUDIO_SOURCE = 67 := by
    decide
  simp only [validateAndSetVidPid, e1, e2, e3, e4, e5, e6, e7, e8]
  simp [GadgetFunction.MTP, GadgetFunction.RNDIS, GadgetFunction.PTP, GadgetFunction.ADB,
    GadgetFunction.MIDI, GadgetFunction.ACCESSORY, GadgetFunction.AUDIO_SOURCE, *]

theorem resolveWith_ite (env : Env) (w : World) (c : Prop) [Decidable c] (pid : String)
    (rest : Option String) (x : Status × World) (h : x = resolveWith env w rest) :
    (if c then setVidPid env VENDOR_ID pid w else x) =
      resolveWith env w (if c then some pid else rest) := by
  by_cases hc : c <;> simp [hc, h, resolveWith]

theorem validateAndSetVidPid_eq_productIdOf (env : Env) (functions : Nat) (w : World) :
    validateAndSetVidPid env functions w = resolveWith env w (productIdOf functions) := by
  unfold validateAndSetVidPid productIdOf
  repeat (apply resolveWith_ite)
  rfl

theorem productIdOf_isSome_iff (functions : Nat) :
    (productIdOf functions).isSome = true ↔ functions ∈ acceptedSets := by
  constructor
  · intro h
    by_contra hn
    have := validateAndSetVidPid_of_not_accepted envAllOk functions worldIdle hn
    rw [validateAndSetVidPid_eq_productIdOf] at this
    cases hp : productIdOf functions with
    | none => simp [hp] at h
    | some pid =>
      simp only [hp, resolveWith] at this
      have h2 := congrArg Prod.fst this
      simp [setVidPid, WriteStringToFile, envAllOk] at h2
  · intro h
    rw [acceptedSets_eq] at h
    simp only [List.mem_cons, List.mem_singleton, List.not_mem_nil, or_false] at h
    rcases h with h | h | h | h | h | h | h | h | h | h | h | h | h | h | h <;>
      subst h <;> decide

theorem productIdOf_injective :
    ∀ a ∈ acceptedSets, ∀ b ∈ acceptedSets, productIdOf a = productIdOf b → a = b := by
  decide

/-- On an accepted set, when the identity writes succeed, the resolver returns
SUCCESS after writing the vendor ID and the product ID of the table. -/
theorem validateAndSetVidPid_of_accepted (env : Env)
    (hvid : ∀ n v, env n (Op.write v VENDOR_ID_PATH) = true)
    (hpid : ∀ n v, env n (Op.write v PRODUCT_ID_PATH) = true) :
    ∀ f w1, f ∈ acceptedSets → ∃ pid, productIdOf f = some pid ∧
      validateAndSetVidPid env f w1 =
        (Status.SUCCESS,
         { w1 with nodes := fun p => if p = PRODUCT_ID_PATH then pid
                                     else if p = VENDOR_ID_PATH then VENDOR_ID else w1.nodes p,
                   log := w1.log ++
                     [Op.write VENDOR_ID VENDOR_ID_PATH, Op.write pid PRODUCT_ID_PATH] }) := by
  intro f w1 hf
  have hs := (productIdOf_isSome_iff f).2 hf
  cases hp : productIdOf f with
  | none => simp [hp] at hs
  | some pid =>
    refine ⟨pid, rfl, ?_⟩
    rw [validateAndSetVidPid_eq_productIdOf, hp]
    exact setVidPid_of_ok env VENDOR_ID pid w1 hvid hpid

/-- C4: provided the writes to the vendor-ID and product-ID nodes succeed,
`validateAndSetVidPid` returns SUCCESS exactly on the fifteen accepted sets
(seven singletons, six ADB pairs, `{ACCESSORY, AUDIO_SOURCE}` and
`{ADB, ACCESSORY, AUDIO_SOURCE}`), returns CONFIGURATION_NOT_SUPPORTED without
any call for every other value, writes vendor ID 0x18d1 and then one product
ID for an accepted set, and two accepted sets that get the same product ID are
equal; `{ADB, MTP}` gets 0x4ee2 and `{ADB, ACCESSORY, AUDIO_SOURCE}` 0x2d05. -/
theorem validateAndSetVidPid_identity_table (env : Env) (w : World) (functions : Nat)
    (hvid : ∀ n v, env n (Op.write v VENDOR_ID_PATH) = true)
    (hpid : ∀ n v, env n (Op.write v PRODUCT_ID_PATH) = true) :
    ((validateAndSetVidPid env functions w).1 = Status.SUCCESS ↔ functions ∈ acceptedSets) ∧
    (functions ∉ acceptedSets →
      validateAndSetVidPid env functions w = (Status.CONFIGURATION_NOT_SUPPORTED, w)) ∧
    (functions ∈ acceptedSets →
      callsAfter w.log.length (validateAndSetVidPid env functions w).2 =
        [Op.write "0x18d1" VENDOR_ID_PATH,
         Op.write ((validateAndSetVidPid env functions w).2.nodes PRODUCT_ID_PATH)
           PRODUCT_ID_PATH] ∧
      (validateAndSetVidPid env functions w).2.nodes VENDOR_ID_PATH = "0x18d1") ∧
    (∀ other w2, functions ∈ acceptedSets → other ∈ acceptedSets →
      (validateAndSetVidPid env other w2).2.nodes PRODUCT_ID_PATH =
        (validateAndSetVidPid env functions w).2.nodes PRODUCT_ID_PATH →
      other = functions) ∧
    (validateAndSetVidPid env (GadgetFunction.ADB ||| GadgetFunction.MTP) w).2.nodes
        PRODUCT_ID_PATH = "0x4ee2" ∧
    (validateAndSetVidPid env
        (GadgetFunction.ADB ||| GadgetFunction.ACCESSORY ||| GadgetFunction.AUDIO_SOURCE)
        w).2.nodes PRODUCT_ID_PATH = "0x2d05" := by
  have key := validateAndSetVidPid_of_accepted env hvid hpid
  have hne : VENDOR_ID_PATH ≠ PRODUCT_ID_PATH := by decide
  refine ⟨?_, validateAndSetVidPid_of_not_accepted env functions w, ?_, ?_, ?_, ?_⟩
  · constructor
    · intro h
      by_contra hn
      rw [validateAndSetVidPid_of_not_accepted env functions w hn] at h
      cases h
    · intro h
      obtain ⟨pid, -, e⟩ := key functions w h
      rw [e]
  · intro h
    obtain ⟨pid, -, e⟩ := key functions w h
    rw [e]
    simp [callsAfter, hne, VENDOR_ID]
  · intro other w2 hf ho hEq
    obtain ⟨pid, hp, e⟩ := key functions w hf
    obtain ⟨pid2, hp2, e2⟩ := key other w2 ho
    rw [e, e2] at hEq
    simp at hEq
    exact productIdOf_injective other ho functions hf (by rw [hp, hp2, hEq])
  · obtain ⟨pid, hp, e⟩ := key (GadgetFunction.ADB ||| GadgetFunction.MTP) w (by decide)
    rw [e]
    have : productIdOf (GadgetFunction.ADB ||| GadgetFunction.MTP) = some "0x4ee2" := by decide
    rw [this] at hp
    simp at hp
    simp [hp]
  · obtain ⟨pid, hp, e⟩ := key
      (GadgetFunction.ADB ||| GadgetFunction.ACCESSORY ||| GadgetFunction.AUDIO_SOURCE) w
      (by decide)
    rw [e]
    have : productIdOf
        (GadgetFunction.ADB ||| GadgetFunction.ACCESSORY ||| GadgetFunction.AUDIO_SOURCE)
        = some "0x2d05" := by decide
    rw [this] at hp
    simp at hp
    simp [hp]

/-- Witness of C4 at `{ADB, MTP}` on an idle gadget with every call succeeding. -/
theorem validateAndSetVidPid_identity_table_witness :
    ((validateAndSetVidPid envAllOk 5 worldIdle).1 = Status.SUCCESS ↔ 5 ∈ acceptedSets) ∧
    (validateAndSetVidPid envAllOk 5 worldIdle).2.nodes PRODUCT_ID_PATH = "0x4ee2" :=
  have h := validateAndSetVidPid_identity_table envAllOk worldIdle 5
    (fun _ _ => rfl) (fun _ _ => rfl)
  ⟨h.1, h.2.2.2.2.1⟩

/-! ### The log only grows -/

@[simp] theorem WriteStringToFile_log (env : Env) (v p : String) (w : World) :
    (WriteStringToFile env v p w).2.log = w.log ++ [Op.write v p] := by
  unfold WriteStringToFile; split <;> rfl

@[simp] theorem WriteStringToFile_dirs (env : Env) (v p : String) (w : World) :
    (WriteStringToFile env v p w).2.dirs = w.dirs := by
  unfold WriteStringToFile; split <;> rfl

@[simp] theorem WriteStringToFile_fst (env : Env) (v p : String) (w : World) :
    (WriteStringToFile env v p w).1 = env w.log.length (Op.write v p) := by
  unfold WriteStringToFile; split <;> simp [*]

@[simp] theorem remove_log (env : Env) (path name : String) (w : World) :
    (remove env path name w).2.log = w.log ++ [Op.remove (path ++ name)] := by
  unfold remove; split <;> rfl

@[simp] theorem remove_nodes (env : Env) (path name : String) (w : World) :
    (remove env path name w).2.nodes = w.nodes := by
  unfold remove; split <;> rfl

theorem remove_fst (env : Env) (path name : String) (w : World) :
    (remove env path name w).1 = 0 ↔ env w.log.length (Op.remove (path ++ name)) = true := by
  unfold remove; split <;> simp [*]

@[simp] theorem symlink_log (env : Env) (t path name : String) (w : World) :
    (symlink env t path name w).2.log = w.log ++ [Op.symlink t (path ++ name)] := by
  unfold symlink; split <;> rfl

@[simp] theorem symlink_nodes (env : Env) (t path name : String) (w : World) :
    (symlink env t path name w).2.nodes = w.nodes := by
  unfold symlink; split <;> rfl

theorem symlink_fst (env : Env) (t path name : String) (w : World) :
    (symlink env t path name w).1 = 0 ↔
      env w.log.length (Op.symlink t (path ++ name)) = true := by
  unfold symlink; split <;> simp [*]

@[simp] theorem linkFunction_log (env : Env) (function : String) (index : Nat) (w : World) :
    (linkFunction env function index w).2.log =
      w.log ++ [Op.symlink (FUNCTIONS_PATH ++ function)
        (CONFIG_PATH ++ (FUNCTION_NAME ++ toString index))] := by
  unfold linkFunction; simp only []; split <;> simp

@[simp] theorem linkFunction_nodes (env : Env) (function : String) (index : Nat) (w : World) :
    (linkFunction env function index w).2.nodes = w.nodes := by
  unfold linkFunction; simp only []; split <;> simp

theorem linkFunction_fst (env : Env) (function : String) (index : Nat) (w : World) :
    (linkFunction env function index w).1 = 0 ↔
      env w.log.length (Op.symlink (FUNCTIONS_PATH ++ function)
        (CONFIG_PATH ++ (FUNCTION_NAME ++ toString index))) = true := by
  unfold linkFunction
  simp only []
  split
  · rename_i h
    simp only [ne_eq, symlink_fst] at h
    simp [h]
  · rename_i h
    simp only [ne_eq, not_not, symlink_fst] at h
    simp [h]

@[simp] theorem usleep_log (us : Nat) (w : World) :
    (usleep us w).log = w.log ++ [Op.usleep us] := rfl

@[simp] theorem usleep_nodes (us : Nat) (w : World) : (usleep us w).nodes = w.nodes := rfl

@[simp] theorem usleep_dirs (us : Nat) (w : World) : (usleep us w).dirs = w.dirs := rfl

@[simp] theorem callListener_log (env : Env) (op : Op) (w : World) :
    (callListener env op w).2.log = w.log ++ [op] := rfl

@[simp] theorem callListener_nodes (env : Env) (op : Op) (w : World) :
    (callListener env op w).2.nodes = w.nodes := rfl

@[simp] theorem callListener_dirs (env : Env) (op : Op) (w : World) :
    (callListener env op w).2.dirs = w.dirs := rfl

@[simp] theorem opendir_log (env : Env) (path : String) (w : World) :
    (opendir env path w).2.log = w.log ++ [Op.opendir path] := rfl

@[simp] theorem opendir_nodes (env : Env) (path : String) (w : World) :
    (opendir env path w).2.nodes = w.nodes := rfl

@[simp] theorem opendir_dirs (env : Env) (path : String) (w : World) :
    (opendir env path w).2.dirs = w.dirs := rfl

/-- The calls of the `readdir` loop are removals, and the nodes are untouched. -/
theorem unlinkLoop_calls (env : Env) (path : String) (l : List String) (w : World) :
    (∃ ops, (unlinkLoop env path l w).2.log = w.log ++ ops ∧
      ∀ op ∈ ops, ∃ name, op = Op.remove (path ++ name)) ∧
    (unlinkLoop env path l w).2.nodes = w.nodes := by
  induction l generalizing w with
  | nil => exact ⟨⟨[], by simp [unlinkLoop], by simp⟩, rfl⟩
  | cons d rest ih =>
    unfold unlinkLoop
    split
    · exact ih w
    · simp only []
      split
      · exact ⟨⟨[Op.remove (path ++ d)], by simp, by simp⟩, by simp⟩
      · obtain ⟨⟨ops, h1, h2⟩, h3⟩ := ih (remove env path d w).2
        refine ⟨⟨Op.remove (path ++ d) :: ops, by simp [h1], ?_⟩, by simp [h3]⟩
        intro op hop
        rcases List.mem_cons.1 hop with h | h
        · exact ⟨d, h⟩
        · exact h2 op h

/-- The calls of teardown are teardown calls. -/
theorem tearDownGadget_calls (env : Env) (w : World) :
    ∃ ops, (tearDownGadget env w).2.log = w.log ++ ops ∧
      ∀ op ∈ ops, op.isTearDownCall = true := by
  have hl := fun w1 => (unlinkLoop_calls env CONFIG_PATH (w1.dirs CONFIG_PATH) w1).1
  unfold tearDownGadget
  simp only []
  split
  · exact ⟨_, by simp; rfl, by simp [Op.isTearDownCall]⟩
  split
  · exact ⟨_, by simp; rfl, by simp [Op.isTearDownCall]⟩
  split
  · exact ⟨_, by simp; rfl, by simp [Op.isTearDownCall]⟩
  split
  · exact ⟨_, by simp; rfl, by simp [Op.isTearDownCall]⟩
  have key : ∀ w1 : World, ∃ ops, (unlinkFunctions env CONFIG_PATH w1).2.log = w1.log ++ ops ∧
      ∀ op ∈ ops, op.isTearDownCall = true := by
    intro w1
    unfold unlinkFunctions
    simp only []
    split
    · exact ⟨[Op.opendir CONFIG_PATH], by simp, by simp [Op.isTearDownCall]⟩
    · obtain ⟨ops, h1, h2⟩ := hl (opendir env CONFIG_PATH w1).2
      simp only [opendir_dirs, opendir_log] at h1
      refine ⟨Op.opendir CONFIG_PATH :: ops, by simp [h1], ?_⟩
      intro op hop
      rcases List.mem_cons.1 hop with h | h
      · subst h; simp [Op.isTearDownCall]
      · obtain ⟨n, hn⟩ := h2 op h
        subst hn; rfl
  obtain ⟨ops, h1, h2⟩ := key
    (WriteStringToFile env "0" DESC_USE_PATH
      (WriteStringToFile env "0" DEVICE_PROTOCOL_PATH
        (WriteStringToFile env "0" DEVICE_SUB_CLASS_PATH
          (WriteStringToFile env "0" DEVICE_CLASS_PATH
            (WriteStringToFile env "none" PULLUP_PATH w).2).2).2).2).2
  have hall : ∀ op ∈ [Op.write "none" PULLUP_PATH, Op.write "0" DEVICE_CLASS_PATH,
      Op.write "0" DEVICE_SUB_CLASS_PATH, Op.write "0" DEVICE_PROTOCOL_PATH,
      Op.write "0" DESC_USE_PATH] ++ ops, op.isTearDownCall = true := by
    intro op hop
    rcases List.mem_append.1 hop with h | h
    · simp only [List.mem_cons, List.mem_singleton, List.not_mem_nil, or_false] at h
      rcases h with h | h | h | h | h <;> subst h <;> decide
    · exact h2 op h
  split
  · exact ⟨_, by rw [h1]; simp, hall⟩
  · exact ⟨_, by rw [h1]; simp, hall⟩

/-! ### Reading a log -/

theorem notifications_append (l1 l2 : List Op) :
    notifications (l1 ++ l2) = notifications l1 ++ notifications l2 := by
  induction l1 with
  | nil => rfl
  | cons op l ih => cases op <;> simp [notifications, ih]

theorem linksOf_append (l1 l2 : List Op) : linksOf (l1 ++ l2) = linksOf l1 ++ linksOf l2 := by
  induction l1 with
  | nil => rfl
  | cons op l ih => cases op <;> simp [linksOf, ih]

theorem notifications_eq_nil (l : List Op)
    (h : ∀ op ∈ l, ∀ f s, op ≠ Op.setCurrentUsbFunctionsCb f s) : notifications l = [] := by
  induction l with
  | nil => rfl
  | cons op l ih =>
    have hl := ih (fun o ho => h o (List.mem_cons_of_mem _ ho))
    cases op with
    | setCurrentUsbFunctionsCb f s => exact absurd rfl (h _ (List.mem_cons_self _ _) f s)
    | _ => simpa [notifications] using hl

theorem isTearDownCall_not_notification (op : Op) (h : op.isTearDownCall = true) (f : Nat)
    (s : Status) : op ≠ Op.setCurrentUsbFunctionsCb f s := by
  intro e; subst e; simp [Op.isTearDownCall] at h

theorem isTearDownCall_not_configures (op : Op) (h : op.isTearDownCall = true) :
    op.configures = false := by
  cases op with
  | write v p =>
    simp only [Op.isTearDownCall, Bool.or_eq_true, Bool.and_eq_true, decide_eq_true_eq] at h
    rcases h with ⟨hv, hp⟩ | ⟨hv, ((hp | hp) | hp) | hp⟩ <;> subst hv <;> subst hp <;> decide
  | _ => first | rfl | simp [Op.isTearDownCall] at h

theorem callsAfter_append (w1 w2 : World) (ops : List Op) (h : w2.log = w1.log ++ ops) :
    callsAfter w1.log.length w2 = ops := by
  simp [callsAfter, h]

/-- C3: for a function set that is not NONE and not accepted by the identity
table, when teardown returns SUCCESS, `setCurrentUsbFunctions` leaves
`applied = false` (and records the requested set), performs after teardown
only the settle delay and the notification of CONFIGURATION_NOT_SUPPORTED to
the listener when there is one, and makes no configuring call at all: no
write to the vendor-ID or product-ID node, no link creation and no write of
the controller name to the pull-up node; nodes and directories are as
teardown left them. -/
theorem setCurrentUsbFunctions_unsupported (env : Env) (g : Gadget) (functions : Nat)
    (callback : Bool) (timeout : Nat) (w : World)
    (hnone : functions ≠ GadgetFunction.NONE) (hnot : functions ∉ acceptedSets)
    (htd : (tearDownGadget env w).1 = Status.SUCCESS) :
    (setCurrentUsbFunctions env g functions callback timeout w).1 =
      { mCurrentUsbFunctions := functions, mCurrentUsbFunctionsApplied := false } ∧
    callsAfter (tearDownGadget env w).2.log.length
        (setCurrentUsbFunctions env g functions callback timeout w).2 =
      Op.usleep DISCONNECT_WAIT_US ::
        (if callback then
          [Op.setCurrentUsbFunctionsCb functions Status.CONFIGURATION_NOT_SUPPORTED]
         else []) ∧
    notifications (callsAfter w.log.length
        (setCurrentUsbFunctions env g functions callback timeout w).2) =
      (if callback then [(functions, Status.CONFIGURATION_NOT_SUPPORTED)] else []) ∧
    (∀ op ∈ callsAfter w.log.length
        (setCurrentUsbFunctions env g functions callback timeout w).2,
      op.configures = false) ∧
    (setCurrentUsbFunctions env g functions callback timeout w).2.nodes =
      (tearDownGadget env w).2.nodes ∧
    (setCurrentUsbFunctions env g functions callback timeout w).2.dirs =
      (tearDownGadget env w).2.dirs := by
  obtain ⟨ops, hlog, hops⟩ := tearDownGadget_calls env w
  have hv := validateAndSetVidPid_of_not_accepted env functions
    (usleep DISCONNECT_WAIT_US (tearDownGadget env w).2) hnot
  have hr : setCurrentUsbFunctions env g functions callback timeout w =
      ({ mCurrentUsbFunctions := functions, mCurrentUsbFunctionsApplied := false },
       if callback then
         (callListener env
           (Op.setCurrentUsbFunctionsCb functions Status.CONFIGURATION_NOT_SUPPORTED)
           (usleep DISCONNECT_WAIT_US (tearDownGadget env w).2)).2
       else usleep DISCONNECT_WAIT_US (tearDownGadget env w).2) := by
    unfold setCurrentUsbFunctions
    simp only [htd, hnone, hv, setCurrentUsbFunctionsError]
    cases callback <;> simp
  have hnotif : notifications ops = [] :=
    notifications_eq_nil ops (fun op ho => isTearDownCall_not_notification op (hops op ho))
  rw [hr]
  cases callback
  · refine ⟨rfl, ?_, ?_, ?_, rfl, rfl⟩
    · simp [callsAfter]
    · simp [callsAfter, hlog, notifications_append, hnotif, notifications]
    · intro op hop
      simp only [callsAfter, Bool.false_eq_true, if_false, usleep_log, hlog,
        List.append_assoc, List.drop_left, List.mem_append, List.mem_singleton] at hop
      rcases hop with h | h
      · exact isTearDownCall_not_configures op (hops op h)
      · subst h; rfl
  · refine ⟨rfl, ?_, ?_, ?_, rfl, rfl⟩
    · simp [callsAfter]
    · simp [callsAfter, hlog, notifications_append, hnotif, notifications]
    · intro op hop
      simp only [callsAfter, if_true, callListener_log, usleep_log, hlog,
        List.append_assoc, List.drop_left, List.mem_append, List.mem_singleton] at hop
      rcases hop with h | h | h
      · exact isTearDownCall_not_configures op (hops op h)
      · subst h; rfl
      · subst h; rfl

/-- Witness of C3 at `{RNDIS, ACCESSORY}` with a registered listener, on a
bound gadget with every call succeeding. -/
theorem setCurrentUsbFunctions_unsupported_witness :
    notifications (callsAfter worldMtpAdb.log.length
        (setCurrentUsbFunctions envAllOk gadgetInit 34 true 0 worldMtpAdb).2) =
      [(34, Status.CONFIGURATION_NOT_SUPPORTED)] ∧
    (setCurrentUsbFunctions envAllOk gadgetInit 34 true 0 worldMtpAdb).1 =
      { mCurrentUsbFunctions := 34, mCurrentUsbFunctionsApplied := false } :=
  have h := setCurrentUsbFunctions_unsupported envAllOk gadgetInit 34 true 0 worldMtpAdb
    (by decide) (by decide) (by decide)
  ⟨h.2.2.1, h.1⟩

/-- C1 (failing input): `{MTP}` is requested with a registered listener on an
idle gadget and every call succeeds but the final write of "1" to the
OS-descriptor-use node.  `setupFunctions` has already told the listener
SUCCESS when that write fails, and the `error:` label of
`setCurrentUsbFunctions` tells it ERROR again: the listener is invoked twice
in one call, and `applied` stays true. -/
theorem setCurrentUsbFunctions_notifies_twice :
    notifications (callsAfter worldIdle.log.length
        (setCurrentUsbFunctions envDescUseFails gadgetInit GadgetFunction.MTP true 0
          worldIdle).2) =
      [(GadgetFunction.MTP, Status.SUCCESS), (GadgetFunction.MTP, Status.ERROR)] ∧
    (setCurrentUsbFunctions envDescUseFails gadgetInit GadgetFunction.MTP true 0
        worldIdle).1.mCurrentUsbFunctionsApplied = true := by
  decide

/-- C2 (failing input): `{ADB}` is requested without a listener on an idle
gadget and every call succeeds.  `setupFunctions` links `ffs.adb` and returns
SUCCESS, but the pull-up is inside `if (callback)`: the controller name is
never written to the pull-up node, `applied` stays false, and a later
`getCurrentUsbFunctions` reports `{ADB}` with FUNCTIONS_NOT_APPLIED. -/
theorem getCurrentUsbFunctions_not_applied_without_listener :
    callsAfter
        (setCurrentUsbFunctions envAllOk gadgetInit GadgetFunction.ADB false 0
          worldIdle).2.log.length
        (getCurrentUsbFunctions envAllOk
          (setCurrentUsbFunctions envAllOk gadgetInit GadgetFunction.ADB false 0 worldIdle).1
          (setCurrentUsbFunctions envAllOk gadgetInit GadgetFunction.ADB false 0 worldIdle).2) =
      [Op.getCurrentUsbFunctionsCb GadgetFunction.ADB Status.FUNCTIONS_NOT_APPLIED] ∧
    GadgetFunction.ADB ∈ acceptedSets ∧
    Op.write GADGET_NAME PULLUP_PATH ∉
      (setCurrentUsbFunctions envAllOk gadgetInit GadgetFunction.ADB false 0 worldIdle).2.log ∧
    linksOf (setCurrentUsbFunctions envAllOk gadgetInit GadgetFunction.ADB false 0
        worldIdle).2.log =
      [(FUNCTIONS_PATH ++ "ffs.adb", CONFIG_PATH ++ "f1")] := by
  decide

/-! ### Teardown -/

/-- Teardown on a bound gadget with every call succeeding: the links `f1` and
`f2`, whose names hold "f", are removed, and the entry `strings`, whose name
does not, is kept. -/
theorem tearDownGadget_removes_links :
    (tearDownGadget envAllOk worldMtpAdb).2.dirs CONFIG_PATH = ["strings"] ∧
    callsAfter worldMtpAdb.log.length (tearDownGadget envAllOk worldMtpAdb).2 =
      [Op.write "none" PULLUP_PATH, Op.write "0" DEVICE_CLASS_PATH,
       Op.write "0" DEVICE_SUB_CLASS_PATH, Op.write "0" DEVICE_PROTOCOL_PATH,
       Op.write "0" DESC_USE_PATH, Op.opendir CONFIG_PATH,
       Op.remove (CONFIG_PATH ++ "f1"), Op.remove (CONFIG_PATH ++ "f2")] ∧
    containsFunctionName "f1" = true ∧ containsFunctionName "strings" = false := by
  decide

/-- A failed pull-down write is not fatal: NONE is requested with a registered
listener on a bound gadget and only the write of "none" to the pull-up node
fails.  The listener is told SUCCESS and the links are removed, but the
pull-up node still holds the controller name. -/
theorem setCurrentUsbFunctions_none_pullup_not_cleared :
    notifications (callsAfter worldMtpAdb.log.length
        (setCurrentUsbFunctions envPullDownFails gadgetInit GadgetFunction.NONE true 0
          worldMtpAdb).2) =
      [(GadgetFunction.NONE, Status.SUCCESS)] ∧
    (setCurrentUsbFunctions envPullDownFails gadgetInit GadgetFunction.NONE true 0
        worldMtpAdb).2.dirs CONFIG_PATH = ["strings"] ∧
    (setCurrentUsbFunctions envPullDownFails gadgetInit GadgetFunction.NONE true 0
        worldMtpAdb).2.nodes PULLUP_PATH = GADGET_NAME := by
  decide

/-! ### Function assembly -/

/-- The pull-up stage creates no link and writes no configuration string. -/
theorem setupPullUp_calls (env : Env) (g : Gadget) (functions : Nat) (callback ffs : Bool)
    (w : World) :
    ∃ tail, (setupPullUp env g functions callback ffs w).2.2.log = w.log ++ tail ∧
      ∀ op ∈ tail, op.isLinkOrString = false := by
  have n1 : PULLUP_PATH ≠ STRING_PATH := by decide
  have n2 : DESC_USE_PATH ≠ STRING_PATH := by decide
  unfold setupPullUp
  simp only []
  split_ifs
  all_goals
    exact ⟨_,
      by first
        | exact (List.append_nil _).symm
        | (simp only [WriteStringToFile_log, callListener_log, usleep_log,
            List.append_assoc]; rfl),
      by simp [Op.isLinkOrString, n1, n2]⟩

/-- One link block of `setupFunctions` followed by the rest of the function:
when link creation succeeds, the block adds the link of its function at the
current index if the bit is requested, and the rest continues at the next
unused index. -/
theorem linkBlock_calls (env : Env) (hlink : ∀ n t l, env n (Op.symlink t l) = true)
    (g : Gadget) (functions bit : Nat) (name : String) (rest : List String)
    (next : Nat → World → Status × Gadget × World)
    (hnext : ∀ j w1, ∃ tail, (next j w1).2.2.log = w1.log ++ (linkCalls j rest ++ tail) ∧
      ∀ op ∈ tail, op.isLinkOrString = false)
    (i : Nat) (w : World) :
    ∃ tail,
      (if functions &&& bit ≠ 0 then
         (if (linkFunction env name i w).1 ≠ 0 then
            (Status.ERROR, g, (linkFunction env name i w).2)
          else next (i + 1) (linkFunction env name i w).2)
       else next i w).2.2.log =
        w.log ++ (linkCalls i (optName functions bit name ++ rest) ++ tail) ∧
      ∀ op ∈ tail, op.isLinkOrString = false := by
  by_cases hb : functions &&& bit ≠ 0
  · have h0 : (linkFunction env name i w).1 = 0 := (linkFunction_fst env name i w).2 (hlink _ _ _)
    obtain ⟨tail, h1, h2⟩ := hnext (i + 1) (linkFunction env name i w).2
    refine ⟨tail, ?_, h2⟩
    rw [if_pos hb, if_neg (not_not.2 h0), h1]
    simp [optName, hb, linkCalls]
  · obtain ⟨tail, h1, h2⟩ := hnext i w
    refine ⟨tail, ?_, h2⟩
    rw [if_neg hb, h1]
    simp [optName, hb]

theorem setupAdb_calls (env : Env) (hlink : ∀ n t l, env n (Op.symlink t l) = true)
    (g : Gadget) (functions : Nat) (callback ffs : Bool) (i : Nat) (w : World) :
    ∃ tail, (setupAdb env g functions callback ffs i w).2.2.log =
        w.log ++ (linkCalls i (optName functions GadgetFunction.ADB "ffs.adb") ++ tail) ∧
      ∀ op ∈ tail, op.isLinkOrString = false := by
  by_cases hb : functions &&& GadgetFunction.ADB ≠ 0
  · have h0 : (linkFunction env "ffs.adb" i w).1 = 0 :=
      (linkFunction_fst env "ffs.adb" i w).2 (hlink _ _ _)
    obtain ⟨tail, h1, h2⟩ :=
      setupPullUp_calls env g functions callback true (linkFunction env "ffs.adb" i w).2
    refine ⟨tail, ?_, h2⟩
    unfold setupAdb
    simp only []
    rw [if_pos hb, if_neg (not_not.2 h0), h1]
    simp [optName, hb, linkCalls]
  · obtain ⟨tail, h1, h2⟩ := setupPullUp_calls env g functions callback ffs w
    refine ⟨tail, ?_, h2⟩
    unfold setupAdb
    rw [if_neg hb, h1]
    simp [optName, hb, linkCalls]

theorem setupRndis_calls (env : Env) (hlink : ∀ n t l, env n (Op.symlink t l) = true)
    (g : Gadget) (functions : Nat) (callback ffs : Bool) (i : Nat) (w : World) :
    ∃ tail, (setupRndis env g functions callback ffs i w).2.2.log =
        w.log ++ (linkCalls i (optName functions GadgetFunction.RNDIS "rndis.gs4" ++
          optName functions GadgetFunction.ADB "ffs.adb") ++ tail) ∧
      ∀ op ∈ tail, op.isLinkOrString = false :=
  linkBlock_calls env hlink g functions GadgetFunction.RNDIS "rndis.gs4" _
    (fun j w1 => setupAdb env g functions callback ffs j w1)
    (fun j w1 => setupAdb_calls env hlink g functions callback ffs j w1) i w

theorem setupAudioSource_calls (env : Env) (hlink : ∀ n t l, env n (Op.symlink t l) = true)
    (g : Gadget) (functions : Nat) (callback ffs : Bool) (i : Nat) (w : World) :
    ∃ tail, (setupAudioSource env g functions callback ffs i w).2.2.log =
        w.log ++ (linkCalls i (optName functions GadgetFunction.AUDIO_SOURCE "audio_source.gs3" ++
          (optName functions GadgetFunction.RNDIS "rndis.gs4" ++
           optName functions GadgetFunction.ADB "ffs.adb")) ++ tail) ∧
      ∀ op ∈ tail, op.isLinkOrString = false :=
  linkBlock_calls env hlink g functions GadgetFunction.AUDIO_SOURCE "audio_source.gs3" _
    (fun j w1 => setupRndis env g functions callback ffs j w1)
    (fun j w1 => setupRndis_calls env hlink g functions callback ffs j w1) i w

theorem setupAccessory_calls (env : Env) (hlink : ∀ n t l, env n (Op.symlink t l) = true)
    (g : Gadget) (functions : Nat) (callback ffs : Bool) (i : Nat) (w : World) :
    ∃ tail, (setupAccessory env g functions callback ffs i w).2.2.log =
        w.log ++ (linkCalls i (optName functions GadgetFunction.ACCESSORY "accessory.gs2" ++
          (optName functions GadgetFunction.AUDIO_SOURCE "audio_source.gs3" ++
          (optName functions GadgetFunction.RNDIS "rndis.gs4" ++
           optName functions GadgetFunction.ADB "ffs.adb"))) ++ tail) ∧
      ∀ op ∈ tail, op.isLinkOrString = false :=
  linkBlock_calls env hlink g functions GadgetFunction.ACCESSORY "accessory.gs2" _
    (fun j w1 => setupAudioSource env g functions callback ffs j w1)
    (fun j w1 => setupAudioSource_calls env hlink g functions callback ffs j w1) i w

theorem setupMidi_calls (env : Env) (hlink : ∀ n t l, env n (Op.symlink t l) = true)
    (g : Gadget) (functions : Nat) (callback ffs : Bool) (i : Nat) (w : World) :
    ∃ tail, (setupMidi env g functions callback ffs i w).2.2.log =
        w.log ++ (linkCalls i (optName functions GadgetFunction.MIDI "midi.gs5" ++
          (optName functions GadgetFunction.ACCESSORY "accessory.gs2" ++
          (optName functions GadgetFunction.AUDIO_SOURCE "audio_source.gs3" ++
          (optName functions GadgetFunction.RNDIS "rndis.gs4" ++
           optName functions GadgetFunction.ADB "ffs.adb")))) ++ tail) ∧
      ∀ op ∈ tail, op.isLinkOrString = false :=
  linkBlock_calls env hlink g functions GadgetFunction.MIDI "midi.gs5" _
    (fun j w1 => setupAccessory env g functions callback ffs j w1)
    (fun j w1 => setupAccessory_calls env hlink g functions callback ffs j w1) i w

/-- C5: when no write of the configuration string and no link creation fails,
the calls of `setupFunctions` are, in this order: the write of the
configuration string ("MTP" if MTP is requested, otherwise "PTP" if PTP is
requested, otherwise no write), then the creation of the links of the
requested functions in the fixed order (`mtp.gs0` or else `ptp.gs1`,
`midi.gs5`, `accessory.gs2`, `audio_source.gs3`, `rndis.gs4`, `ffs.adb`) at the
consecutive link names `f1`, `f2`, ..., and then calls that neither create a
link nor write the configuration string. -/
theorem setupFunctions_links (env : Env) (g : Gadget) (functions : Nat) (callback : Bool)
    (timeout : Nat) (w : World)
    (hstr : ∀ n v, env n (Op.write v STRING_PATH) = true)
    (hlink : ∀ n t l, env n (Op.symlink t l) = true) :
    ∃ tail,
      callsAfter w.log.length (setupFunctions env g functions callback timeout w).2.2 =
        stringCalls functions ++ (linkCalls 1 (requestedFunctions functions) ++ tail) ∧
      ∀ op ∈ tail, op.isLinkOrString = false := by
  by_cases hm : functions &&& GadgetFunction.MTP ≠ 0
  · have hw : (WriteStringToFile env "MTP" STRING_PATH w).1 = true := by simp [hstr]
    have h0 : (linkFunction env "mtp.gs0" 1 (WriteStringToFile env "MTP" STRING_PATH w).2).1 = 0 :=
      (linkFunction_fst _ _ _ _).2 (hlink _ _ _)
    obtain ⟨tail, h1, h2⟩ := setupMidi_calls env hlink g functions callback true 2
      (linkFunction env "mtp.gs0" 1 (WriteStringToFile env "MTP" STRING_PATH w).2).2
    refine ⟨tail, ?_, h2⟩
    unfold setupFunctions
    simp only []
    rw [if_pos hm, if_neg (by simp [hstr]), if_neg (not_not.2 h0)]
    simp [callsAfter, h1, stringCalls, requestedFunctions, hm, linkCalls]
  · by_cases hp : functions &&& GadgetFunction.PTP ≠ 0
    · have hw : (WriteStringToFile env "PTP" STRING_PATH w).1 = true := by simp [hstr]
      have h0 :
          (linkFunction env "ptp.gs1" 1 (WriteStringToFile env "PTP" STRING_PATH w).2).1 = 0 :=
        (linkFunction_fst _ _ _ _).2 (hlink _ _ _)
      obtain ⟨tail, h1, h2⟩ := setupMidi_calls env hlink g functions callback true 2
        (linkFunction env "ptp.gs1" 1 (WriteStringToFile env "PTP" STRING_PATH w).2).2
      refine ⟨tail, ?_, h2⟩
      unfold setupFunctions
      simp only []
      rw [if_neg hm, if_pos hp, if_neg (by simp [hstr]), if_neg (not_not.2 h0)]
      simp [callsAfter, h1, stringCalls, requestedFunctions, hm, hp, optName, linkCalls]
    · obtain ⟨tail, h1, h2⟩ := setupMidi_calls env hlink g functions callback false 1 w
      refine ⟨tail, ?_, h2⟩
      unfold setupFunctions
      rw [if_neg hm, if_neg hp]
      simp [callsAfter, h1, stringCalls, requestedFunctions, hm, hp, optName]

/-- Witness of C5 at `{ADB, MTP}`: the string "MTP", then `mtp.gs0` at `f1` and
`ffs.adb` at `f2`. -/
theorem setupFunctions_links_witness :
    ∃ tail,
      callsAfter worldIdle.log.length
          (setupFunctions envAllOk gadgetInit 5 true 0 worldIdle).2.2 =
        [Op.write "MTP" STRING_PATH] ++
          ([Op.symlink (FUNCTIONS_PATH ++ "mtp.gs0") (CONFIG_PATH ++ "f1"),
            Op.symlink (FUNCTIONS_PATH ++ "ffs.adb") (CONFIG_PATH ++ "f2")] ++ tail) ∧
      ∀ op ∈ tail, op.isLinkOrString = false :=
  setupFunctions_links envAllOk gadgetInit 5 true 0 worldIdle (fun _ _ => rfl)
    (fun _ _ _ => rfl)

/-- Scenario `{AUDIO_SOURCE, ACCESSORY, ADB}` with every call
succeeding: `accessory.gs2`, `audio_source.gs3` and `ffs.adb` are linked at
`f1`, `f2`, `f3`, the gadget is pulled up and the listener is told SUCCESS;
the configuration string is not written. -/
theorem setupFunctions_accessory_audio_adb :
    (setupFunctions envAllOk gadgetInit 67 true 0 worldIdle).2.2.log =
      [Op.symlink (FUNCTIONS_PATH ++ "accessory.gs2") (CONFIG_PATH ++ "f1"),
       Op.symlink (FUNCTIONS_PATH ++ "audio_source.gs3") (CONFIG_PATH ++ "f2"),
       Op.symlink (FUNCTIONS_PATH ++ "ffs.adb") (CONFIG_PATH ++ "f3"),
       Op.write GADGET_NAME PULLUP_PATH, Op.usleep PULL_UP_DELAY,
       Op.setCurrentUsbFunctionsCb 67 Status.SUCCESS] := by
  decide

end UsbGadget

namespace UsbGadget

/-! ### When every node operation succeeds -/

theorem unlinkLoop_of_ok (env : Env) (hrm : ∀ n p, env n (Op.remove p) = true) (path : String)
    (l : List String) (w : World) : (unlinkLoop env path l w).1 = 0 := by
  induction l generalizing w with
  | nil => rfl
  | cons d rest ih =>
    unfold unlinkLoop
    split
    · exact ih w
    · have h0 : (remove env path d w).1 = 0 := (remove_fst env path d w).2 (hrm _ _)
      simp only []
      rw [if_neg (not_not.2 h0)]
      exact ih _

theorem tearDownGadget_of_ok (env : Env) (hok : ∀ n op, op.isNodeOp = true → env n op = true)
    (w : World) : (tearDownGadget env w).1 = Status.SUCCESS := by
  have hw : ∀ n v p, env n (Op.write v p) = true := fun n v p => hok n _ rfl
  have ho : ∀ n p, env n (Op.opendir p) = true := fun n p => hok n _ rfl
  have hrm : ∀ n p, env n (Op.remove p) = true := fun n p => hok n _ rfl
  have hu : ∀ w1, (unlinkFunctions env CONFIG_PATH w1).1 = 0 := by
    intro w1
    unfold unlinkFunctions
    simp only [opendir, ho]
    exact unlinkLoop_of_ok env hrm _ _ _
  unfold tearDownGadget
  simp [hw, hu]

theorem setupPullUp_of_ok (env : Env) (hw : ∀ n v p, env n (Op.write v p) = true)
    (g : Gadget) (functions : Nat) (callback ffs : Bool) (w : World)
    (h : callback = true ∨ ffs = false) :
    (setupPullUp env g functions callback ffs w).1 = Status.SUCCESS ∧
    (setupPullUp env g functions callback ffs w).2.1 =
      { g with mCurrentUsbFunctionsApplied := true } := by
  unfold setupPullUp
  cases ffs <;> cases callback <;> simp [hw] at h ⊢
  split <;> simp

/-- One link block followed by the rest of the function, when link creation
succeeds: the outcome is the outcome of the rest. -/
theorem linkBlock_of_ok (env : Env) (hl : ∀ n t l, env n (Op.symlink t l) = true)
    (g g1 : Gadget) (functions bit : Nat) (name : String)
    (next : Nat → World → Status × Gadget × World)
    (hnext : ∀ j w1, (next j w1).1 = Status.SUCCESS ∧ (next j w1).2.1 = g1)
    (i : Nat) (w : World) :
    (if functions &&& bit ≠ 0 then
       (if (linkFunction env name i w).1 ≠ 0 then
          (Status.ERROR, g, (linkFunction env name i w).2)
        else next (i + 1) (linkFunction env name i w).2)
     else next i w).1 = Status.SUCCESS ∧
    (if functions &&& bit ≠ 0 then
       (if (linkFunction env name i w).1 ≠ 0 then
          (Status.ERROR, g, (linkFunction env name i w).2)
        else next (i + 1) (linkFunction env name i w).2)
     else next i w).2.1 = g1 := by
  have h0 : (linkFunction env name i w).1 = 0 := (linkFunction_fst env name i w).2 (hl _ _ _)
  by_cases hb : functions &&& bit ≠ 0
  · rw [if_pos hb, if_neg (not_not.2 h0)]; exact hnext _ _
  · rw [if_neg hb]; exact hnext _ _

theorem setupAdb_of_ok (env : Env) (hok : ∀ n op, op.isNodeOp = true → env n op = true)
    (g : Gadget) (functions : Nat) (callback ffs : Bool) (i : Nat) (w : World)
    (h : callback = true ∨ (ffs = false ∧ functions &&& GadgetFunction.ADB = 0)) :
    (setupAdb env g functions callback ffs i w).1 = Status.SUCCESS ∧
    (setupAdb env g functions callback ffs i w).2.1 =
      { g with mCurrentUsbFunctionsApplied := true } := by
  have hw : ∀ n v p, env n (Op.write v p) = true := fun n v p => hok n _ rfl
  have hl : ∀ n t l, env n (Op.symlink t l) = true := fun n t l => hok n _ rfl
  have h0 : (linkFunction env "ffs.adb" i w).1 = 0 := (linkFunction_fst _ _ _ _).2 (hl _ _ _)
  unfold setupAdb
  by_cases hb : functions &&& GadgetFunction.ADB ≠ 0
  · have hc : callback = true := by
      rcases h with h | h
      · exact h
      · exact absurd h.2 hb
    simp only []
    rw [if_pos hb, if_neg (not_not.2 h0)]
    exact setupPullUp_of_ok env hw g functions callback true _ (Or.inl hc)
  · rw [if_neg hb]
    refine setupPullUp_of_ok env hw g functions callback ffs _ ?_
    rcases h with h | h
    · exact Or.inl h
    · exact Or.inr h.1

theorem setupMidi_of_ok (env : Env) (hok : ∀ n op, op.isNodeOp = true → env n op = true)
    (g : Gadget) (functions : Nat) (callback ffs : Bool) (i : Nat) (w : World)
    (h : callback = true ∨ (ffs = false ∧ functions &&& GadgetFunction.ADB = 0)) :
    (setupMidi env g functions callback ffs i w).1 = Status.SUCCESS ∧
    (setupMidi env g functions callback ffs i w).2.1 =
      { g with mCurrentUsbFunctionsApplied := true } := by
  have hl : ∀ n t l, env n (Op.symlink t l) = true := fun n t l => hok n _ rfl
  have hAdb := fun j w1 => setupAdb_of_ok env hok g functions callback ffs j w1 h
  have hRndis : ∀ j w1, (setupRndis env g functions callback ffs j w1).1 = Status.SUCCESS ∧
      (setupRndis env g functions callback ffs j w1).2.1 =
        { g with mCurrentUsbFunctionsApplied := true } := fun j w1 =>
    linkBlock_of_ok env hl g _ functions GadgetFunction.RNDIS "rndis.gs4"
      (fun j w1 => setupAdb env g functions callback ffs j w1) hAdb j w1
  have hAudio : ∀ j w1, (setupAudioSource env g functions callback ffs j w1).1 = Status.SUCCESS ∧
      (setupAudioSource env g functions callback ffs j w1).2.1 =
        { g with mCurrentUsbFunctionsApplied := true } := fun j w1 =>
    linkBlock_of_ok env hl g _ functions GadgetFunction.AUDIO_SOURCE "audio_source.gs3"
      (fun j w1 => setupRndis env g functions callback ffs j w1) hRndis j w1
  have hAcc : ∀ j w1, (setupAccessory env g functions callback ffs j w1).1 = Status.SUCCESS ∧
      (setupAccessory env g functions callback ffs j w1).2.1 =
        { g with mCurrentUsbFunctionsApplied := true } := fun j w1 =>
    linkBlock_of_ok env hl g _ functions GadgetFunction.ACCESSORY "accessory.gs2"
      (fun j w1 => setupAudioSource env g functions callback ffs j w1) hAudio j w1
  exact linkBlock_of_ok env hl g _ functions GadgetFunction.MIDI "midi.gs5"
    (fun j w1 => setupAccessory env g functions callback ffs j w1) hAcc i w

/-- When every node operation succeeds, `setupFunctions` returns SUCCESS with
`applied = true`, provided a listener is registered or none of MTP, PTP and
ADB is requested. -/
theorem setupFunctions_of_ok (env : Env) (hok : ∀ n op, op.isNodeOp = true → env n op = true)
    (g : Gadget) (functions : Nat) (callback : Bool) (timeout : Nat) (w : World)
    (h : callback = true ∨
      (functions &&& GadgetFunction.MTP = 0 ∧ functions &&& GadgetFunction.PTP = 0 ∧
       functions &&& GadgetFunction.ADB = 0)) :
    (setupFunctions env g functions callback timeout w).1 = Status.SUCCESS ∧
    (setupFunctions env g functions callback timeout w).2.1 =
      { g with mCurrentUsbFunctionsApplied := true } := by
  have hw : ∀ n v p, env n (Op.write v p) = true := fun n v p => hok n _ rfl
  have hl : ∀ n t l, env n (Op.symlink t l) = true := fun n t l => hok n _ rfl
  have hlf : ∀ name i w1, (linkFunction env name i w1).1 = 0 := fun name i w1 =>
    (linkFunction_fst env name i w1).2 (hl _ _ _)
  unfold setupFunctions
  by_cases hm : functions &&& GadgetFunction.MTP ≠ 0
  · have hc : callback = true := by
      rcases h with h | h
      · exact h
      · exact absurd h.1 hm
    simp only []
    rw [if_pos hm, if_neg (by simp [hw]), if_neg (not_not.2 (hlf _ _ _))]
    exact setupMidi_of_ok env hok g functions callback true 2 _ (Or.inl hc)
  · by_cases hp : functions &&& GadgetFunction.PTP ≠ 0
    · have hc : callback = true := by
        rcases h with h | h
        · exact h
        · exact absurd h.2.1 hp
      simp only []
      rw [if_neg hm, if_pos hp, if_neg (by simp [hw]), if_neg (not_not.2 (hlf _ _ _))]
      exact setupMidi_of_ok env hok g functions callback true 2 _ (Or.inl hc)
    · rw [if_neg hm, if_neg hp]
      refine setupMidi_of_ok env hok g functions callback false 1 w ?_
      rcases h with h | h
      · exact Or.inl h
      · exact Or.inr ⟨rfl, h.2.2⟩

/-- The successful path: for every accepted function set, when every node write,
directory opening, symlink removal and link creation succeeds and either a
listener is registered or none of MTP, PTP and ADB is requested, the gadget
state after `setCurrentUsbFunctions` holds the requested set with
`applied = true`, so that `getCurrentUsbFunctions` reports that set with
FUNCTIONS_APPLIED. -/
theorem setCurrentUsbFunctions_applied (env : Env) (g : Gadget) (functions : Nat)
    (callback : Bool) (timeout : Nat) (w : World)
    (hok : ∀ n op, op.isNodeOp = true → env n op = true)
    (hf : functions ∈ acceptedSets)
    (h : callback = true ∨
      (functions &&& GadgetFunction.MTP = 0 ∧ functions &&& GadgetFunction.PTP = 0 ∧
       functions &&& GadgetFunction.ADB = 0)) :
    (setCurrentUsbFunctions env g functions callback timeout w).1 =
      { mCurrentUsbFunctions := functions, mCurrentUsbFunctionsApplied := true } ∧
    ∀ env2,
      callsAfter (setCurrentUsbFunctions env g functions callback timeout w).2.log.length
        (getCurrentUsbFunctions env2
          (setCurrentUsbFunctions env g functions callback timeout w).1
          (setCurrentUsbFunctions env g functions callback timeout w).2) =
      [Op.getCurrentUsbFunctionsCb functions Status.FUNCTIONS_APPLIED] := by
  have htd := tearDownGadget_of_ok env hok w
  have hne : functions ≠ GadgetFunction.NONE := by
    intro e; rw [e] at hf; revert hf; decide
  have hv : (validateAndSetVidPid env functions
      (usleep DISCONNECT_WAIT_US (tearDownGadget env w).2)).1 = Status.SUCCESS := by
    obtain ⟨pid, -, e⟩ := validateAndSetVidPid_of_accepted env
      (fun n v => hok n _ rfl) (fun n v => hok n _ rfl) functions
      (usleep DISCONNECT_WAIT_US (tearDownGadget env w).2) hf
    rw [e]
  have hs := setupFunctions_of_ok env hok
    { g with mCurrentUsbFunctions := functions, mCurrentUsbFunctionsApplied := false }
    functions callback timeout
    (validateAndSetVidPid env functions (usleep DISCONNECT_WAIT_US (tearDownGadget env w).2)).2 h
  have hg : (setCurrentUsbFunctions env g functions callback timeout w).1 =
      { mCurrentUsbFunctions := functions, mCurrentUsbFunctionsApplied := true } := by
    unfold setCurrentUsbFunctions
    simp only [htd, hne, hv, hs.1, ne_eq, not_true_eq_false, if_false]
    exact hs.2
  refine ⟨hg, fun env2 => ?_⟩
  rw [hg]
  simp [callsAfter, getCurrentUsbFunctions, callListener]

end UsbGadget

namespace UsbGadget

/-! ### How often the listener is notified -/

/-- The calls of the resolver are node writes. -/
theorem validateAndSetVidPid_calls (env : Env) (functions : Nat) (w : World) :
    ∃ ops, (validateAndSetVidPid env functions w).2.log = w.log ++ ops ∧
      notifications ops = [] := by
  rw [validateAndSetVidPid_eq_productIdOf]
  cases productIdOf functions with
  | none => exact ⟨[], by simp [resolveWith], rfl⟩
  | some pid =>
    simp only [resolveWith, setVidPid]
    split
    · exact ⟨[Op.write VENDOR_ID VENDOR_ID_PATH], by simp, rfl⟩
    · split
      · exact ⟨[Op.write VENDOR_ID VENDOR_ID_PATH, Op.write pid PRODUCT_ID_PATH], by simp, rfl⟩
      · exact ⟨[Op.write VENDOR_ID VENDOR_ID_PATH, Op.write pid PRODUCT_ID_PATH], by simp, rfl⟩

theorem setupPullUp_notified (env : Env) (g : Gadget) (functions : Nat) (ffs : Bool) (w : World) :
    NotifiedBySetup env functions w (setupPullUp env g functions true ffs w) := by
  unfold setupPullUp NotifiedBySetup
  simp only []
  cases ffs
  · by_cases h1 : env w.log.length (Op.write GADGET_NAME PULLUP_PATH) = true
    · exact ⟨[Op.write GADGET_NAME PULLUP_PATH,
        Op.setCurrentUsbFunctionsCb functions Status.SUCCESS], by simp [h1],
        Or.inl ⟨by simp [h1], Status.SUCCESS, rfl⟩⟩
    · exact ⟨[Op.write GADGET_NAME PULLUP_PATH], by simp [h1],
        Or.inr (Or.inl ⟨by simp [h1], rfl⟩)⟩
  · by_cases h1 : env w.log.length (Op.write GADGET_NAME PULLUP_PATH) = true
    · by_cases hb : functions &&& GadgetFunction.MTP ≠ 0 ∨ functions &&& GadgetFunction.PTP ≠ 0
      · by_cases h2 : env (w.log.length + 1 + 1 + 1) (Op.write "1" DESC_USE_PATH) = true
        · exact ⟨[Op.write GADGET_NAME PULLUP_PATH, Op.usleep PULL_UP_DELAY,
            Op.setCurrentUsbFunctionsCb functions Status.SUCCESS, Op.write "1" DESC_USE_PATH],
            by simp [h1, hb, h2], Or.inl ⟨by simp [h1, hb, h2], Status.SUCCESS, rfl⟩⟩
        · exact ⟨[Op.write GADGET_NAME PULLUP_PATH, Op.usleep PULL_UP_DELAY,
            Op.setCurrentUsbFunctionsCb functions Status.SUCCESS, Op.write "1" DESC_USE_PATH],
            by simp [h1, hb, h2],
            Or.inr (Or.inr ⟨by simp [h1, hb, h2], ⟨Status.SUCCESS, rfl⟩, hb, _,
              Bool.eq_false_iff.2 h2⟩)⟩
      · exact ⟨[Op.write GADGET_NAME PULLUP_PATH, Op.usleep PULL_UP_DELAY,
          Op.setCurrentUsbFunctionsCb functions Status.SUCCESS],
          by simp [h1, hb], Or.inl ⟨by simp [h1, hb], Status.SUCCESS, rfl⟩⟩
    · by_cases hb : functions &&& GadgetFunction.MTP ≠ 0 ∨ functions &&& GadgetFunction.PTP ≠ 0
      · by_cases h2 : env (w.log.length + 1 + 1) (Op.write "1" DESC_USE_PATH) = true
        · exact ⟨[Op.write GADGET_NAME PULLUP_PATH,
            Op.setCurrentUsbFunctionsCb functions Status.ERROR, Op.write "1" DESC_USE_PATH],
            by simp [h1, hb, h2], Or.inl ⟨by simp [h1, hb, h2], Status.ERROR, rfl⟩⟩
        · exact ⟨[Op.write GADGET_NAME PULLUP_PATH,
            Op.setCurrentUsbFunctionsCb functions Status.ERROR, Op.write "1" DESC_USE_PATH],
            by simp [h1, hb, h2],
            Or.inr (Or.inr ⟨by simp [h1, hb, h2], ⟨Status.ERROR, rfl⟩, hb, _,
              Bool.eq_false_iff.2 h2⟩)⟩
      · exact ⟨[Op.write GADGET_NAME PULLUP_PATH,
          Op.setCurrentUsbFunctionsCb functions Status.ERROR],
          by simp [h1, hb], Or.inl ⟨by simp [h1, hb], Status.ERROR, rfl⟩⟩

/-- A call that is not a notification, made before the rest of
`setupFunctions`, does not change how often the rest notifies. -/
theorem NotifiedBySetup_after (env : Env) (functions : Nat) (w w1 : World) (op : Op)
    (r : Status × Gadget × World) (hlog : w1.log = w.log ++ [op])
    (hop : notifications [op] = []) (h : NotifiedBySetup env functions w1 r) :
    NotifiedBySetup env functions w r := by
  obtain ⟨ops, h1, h2⟩ := h
  refine ⟨op :: ops, by rw [h1, hlog]; simp, ?_⟩
  have e : notifications (op :: ops) = notifications ops := by
    have := notifications_append [op] ops
    simpa [hop] using this
  rw [e]
  exact h2

/-- A failed call that is not a notification, followed by `return ERROR`. -/
theorem NotifiedBySetup_abort (env : Env) (functions : Nat) (w w1 : World) (op : Op)
    (g : Gadget) (hlog : w1.log = w.log ++ [op]) (hop : notifications [op] = []) :
    NotifiedBySetup env functions w (Status.ERROR, g, w1) :=
  ⟨[op], hlog, Or.inr (Or.inl ⟨rfl, hop⟩)⟩

theorem linkBlock_notified (env : Env) (g : Gadget) (functions bit : Nat) (name : String)
    (next : Nat → World → Status × Gadget × World)
    (hnext : ∀ j w1, NotifiedBySetup env functions w1 (next j w1))
    (i : Nat) (w : World) :
    NotifiedBySetup env functions w
      (if functions &&& bit ≠ 0 then
         (if (linkFunction env name i w).1 ≠ 0 then
            (Status.ERROR, g, (linkFunction env name i w).2)
          else next (i + 1) (linkFunction env name i w).2)
       else next i w) := by
  by_cases hb : functions &&& bit ≠ 0
  · rw [if_pos hb]
    split
    · exact NotifiedBySetup_abort env functions w _ _ g (linkFunction_log _ _ _ _) rfl
    · exact NotifiedBySetup_after env functions w _ _ _ (linkFunction_log _ _ _ _) rfl
        (hnext _ _)
  · rw [if_neg hb]; exact hnext _ _

theorem setupMidi_notified (env : Env) (g : Gadget) (functions : Nat) (ffs : Bool) (i : Nat)
    (w : World) : NotifiedBySetup env functions w (setupMidi env g functions true ffs i w) := by
  have hAdb : ∀ j w1, NotifiedBySetup env functions w1 (setupAdb env g functions true ffs j w1) := by
    intro j w1
    unfold setupAdb
    by_cases hb : functions &&& GadgetFunction.ADB ≠ 0
    · simp only []
      rw [if_pos hb]
      split
      · exact NotifiedBySetup_abort env functions w1 _ _ g (linkFunction_log _ _ _ _) rfl
      · exact NotifiedBySetup_after env functions w1 _ _ _ (linkFunction_log _ _ _ _) rfl
          (setupPullUp_notified env g functions true _)
    · rw [if_neg hb]; exact setupPullUp_notified env g functions ffs w1
  have hRndis : ∀ j w1,
      NotifiedBySetup env functions w1 (setupRndis env g functions true ffs j w1) := fun j w1 =>
    linkBlock_notified env g functions GadgetFunction.RNDIS "rndis.gs4"
      (fun j w1 => setupAdb env g functions true ffs j w1) hAdb j w1
  have hAudio : ∀ j w1,
      NotifiedBySetup env functions w1 (setupAudioSource env g functions true ffs j w1) :=
    fun j w1 => linkBlock_notified env g functions GadgetFunction.AUDIO_SOURCE "audio_source.gs3"
      (fun j w1 => setupRndis env g functions true ffs j w1) hRndis j w1
  have hAcc : ∀ j w1,
      NotifiedBySetup env functions w1 (setupAccessory env g functions true ffs j w1) :=
    fun j w1 => linkBlock_notified env g functions GadgetFunction.ACCESSORY "accessory.gs2"
      (fun j w1 => setupAudioSource env g functions true ffs j w1) hAudio j w1
  exact linkBlock_notified env g functions GadgetFunction.MIDI "midi.gs5"
    (fun j w1 => setupAccessory env g functions true ffs j w1) hAcc i w

theorem setupFunctions_notified (env : Env) (g : Gadget) (functions : Nat) (timeout : Nat)
    (w : World) :
    NotifiedBySetup env functions w (setupFunctions env g functions true timeout w) := by
  unfold setupFunctions
  simp only []
  split
  · split
    · exact NotifiedBySetup_abort env functions w _ _ g (WriteStringToFile_log _ _ _ _) rfl
    · refine NotifiedBySetup_after env functions w
        (WriteStringToFile env "MTP" STRING_PATH w).2 (Op.write "MTP" STRING_PATH) _
        (WriteStringToFile_log _ _ _ _) rfl ?_
      split
      · exact NotifiedBySetup_abort env functions _ _ _ g (linkFunction_log _ _ _ _) rfl
      · exact NotifiedBySetup_after env functions _ _ _ _ (linkFunction_log _ _ _ _) rfl
          (setupMidi_notified env g functions true 2 _)
  · split
    · split
      · exact NotifiedBySetup_abort env functions w _ _ g (WriteStringToFile_log _ _ _ _) rfl
      · refine NotifiedBySetup_after env functions w
          (WriteStringToFile env "PTP" STRING_PATH w).2 (Op.write "PTP" STRING_PATH) _
          (WriteStringToFile_log _ _ _ _) rfl ?_
        split
        · exact NotifiedBySetup_abort env functions _ _ _ g (linkFunction_log _ _ _ _) rfl
        · exact NotifiedBySetup_after env functions _ _ _ _ (linkFunction_log _ _ _ _) rfl
            (setupMidi_notified env g functions true 2 _)
    · exact setupMidi_notified env g functions false 1 w

/-- General count of the notifications: with a registered listener, `setCurrentUsbFunctions`
notifies the listener once, or twice; twice only for a set with MTP or PTP
when a write of "1" to the OS-descriptor-use node fails, and the second
status is then ERROR. -/
theorem setCurrentUsbFunctions_notified (env : Env) (g : Gadget) (functions : Nat)
    (timeout : Nat) (w : World) :
    ∃ s,
      notifications (callsAfter w.log.length
          (setCurrentUsbFunctions env g functions true timeout w).2) = [(functions, s)] ∨
      (notifications (callsAfter w.log.length
          (setCurrentUsbFunctions env g functions true timeout w).2) =
          [(functions, s), (functions, Status.ERROR)] ∧
        (functions &&& GadgetFunction.MTP ≠ 0 ∨ functions &&& GadgetFunction.PTP ≠ 0) ∧
        ∃ n, env n (Op.write "1" DESC_USE_PATH) = false) := by
  obtain ⟨tops, htl, htops⟩ := tearDownGadget_calls env w
  have htn : notifications tops = [] :=
    notifications_eq_nil tops (fun op ho => isTearDownCall_not_notification op (htops op ho))
  unfold setCurrentUsbFunctions
  simp only [setCurrentUsbFunctionsError, Bool.true_eq_false, if_false]
  split
  · exact ⟨(tearDownGadget env w).1, Or.inl (by
      simp [callsAfter, htl, notifications_append, htn, notifications])⟩
  split
  · exact ⟨Status.SUCCESS, Or.inl (by
      simp [callsAfter, htl, notifications_append, htn, notifications])⟩
  obtain ⟨vops, hvl, hvn⟩ := validateAndSetVidPid_calls env functions
    (usleep DISCONNECT_WAIT_US (tearDownGadget env w).2)
  split
  · exact ⟨(validateAndSetVidPid env functions
      (usleep DISCONNECT_WAIT_US (tearDownGadget env w).2)).1, Or.inl (by
      simp [callsAfter, hvl, htl, notifications_append, htn, hvn, notifications])⟩
  obtain ⟨sops, hsl, hs⟩ := setupFunctions_notified env
    { g with mCurrentUsbFunctions := functions, mCurrentUsbFunctionsApplied := false }
    functions timeout
    (validateAndSetVidPid env functions (usleep DISCONNECT_WAIT_US (tearDownGadget env w).2)).2
  rcases hs with ⟨h1, s, h2⟩ | ⟨h1, h2⟩ | ⟨h1, ⟨s, h2⟩, h3, h4⟩
  · rw [if_neg (by rw [h1]; decide)]
    exact ⟨s, Or.inl (by
      simp [callsAfter, hsl, hvl, htl, notifications_append, htn, hvn, h2, notifications])⟩
  · rw [if_pos (by rw [h1]; decide), h1]
    exact ⟨Status.ERROR, Or.inl (by
      simp [callsAfter, hsl, hvl, htl, notifications_append, htn, hvn, h2, notifications])⟩
  · rw [if_pos (by rw [h1]; decide), h1]
    exact ⟨s, Or.inr ⟨by
      simp [callsAfter, hsl, hvl, htl, notifications_append, htn, hvn, h2, notifications],
      h3, h4⟩⟩

end UsbGadget

namespace UsbGadget

/-! ### The `applied` flag -/

/-- C11 (failing input): `{ADB, MTP}` is requested with a registered listener
on a bound gadget and every call succeeds but the final write of "1" to the
OS-descriptor-use node.  The controller name has been written to the pull-up
node and `applied` set to true when that write fails; `setupFunctions`
returns ERROR and the listener is told ERROR, yet `applied` is true when
`setCurrentUsbFunctions` returns. -/
theorem setCurrentUsbFunctions_applied_after_error :
    (setCurrentUsbFunctions envDescUseFails gadgetMtpAdb 5 true 0 worldMtpAdb).1 =
      { mCurrentUsbFunctions := 5, mCurrentUsbFunctionsApplied := true } ∧
    (5, Status.ERROR) ∈ notifications (callsAfter worldMtpAdb.log.length
        (setCurrentUsbFunctions envDescUseFails gadgetMtpAdb 5 true 0 worldMtpAdb).2) ∧
    (setupFunctions envDescUseFails
        { mCurrentUsbFunctions := 5, mCurrentUsbFunctionsApplied := false } 5 true 0
        worldIdle).1 = Status.ERROR ∧
    (setupFunctions envDescUseFails
        { mCurrentUsbFunctions := 5, mCurrentUsbFunctionsApplied := false } 5 true 0
        worldIdle).2.1.mCurrentUsbFunctionsApplied = true := by
  decide

theorem setupPullUp_appliedInv (env : Env) (g : Gadget) (functions : Nat) (callback ffs : Bool)
    (w : World) (hg : g.mCurrentUsbFunctionsApplied = false) :
    AppliedBySetup env g w (setupPullUp env g functions callback ffs w) := by
  unfold setupPullUp AppliedBySetup
  simp only []
  by_cases h1 : env w.log.length (Op.write GADGET_NAME PULLUP_PATH) = true
  · cases ffs
    · cases callback
      · exact ⟨[Op.write GADGET_NAME PULLUP_PATH], by simp [h1], by simp [h1], fun _ =>
          ⟨⟨[], [], rfl, by simpa using h1⟩, by simp [notifications], Or.inl (by simp [h1])⟩⟩
      · exact ⟨[Op.write GADGET_NAME PULLUP_PATH,
          Op.setCurrentUsbFunctionsCb functions Status.SUCCESS], by simp [h1], by simp [h1],
          fun _ => ⟨⟨[], [Op.setCurrentUsbFunctionsCb functions Status.SUCCESS], rfl,
            by simpa using h1⟩, by simp [notifications], Or.inl (by simp [h1])⟩⟩
    · cases callback
      · exact ⟨[], by simp, by simp, fun h => by simp [hg] at h⟩
      · by_cases hb : functions &&& GadgetFunction.MTP ≠ 0 ∨ functions &&& GadgetFunction.PTP ≠ 0
        · by_cases h2 : env (w.log.length + 1 + 1 + 1) (Op.write "1" DESC_USE_PATH) = true
          · exact ⟨[Op.write GADGET_NAME PULLUP_PATH, Op.usleep PULL_UP_DELAY,
              Op.setCurrentUsbFunctionsCb functions Status.SUCCESS,
              Op.write "1" DESC_USE_PATH], by simp [h1, hb, h2], by simp [h1, hb, h2],
              fun _ => ⟨⟨[], _, rfl, by simpa using h1⟩, by simp [notifications],
                Or.inl (by simp [h1, hb, h2])⟩⟩
          · exact ⟨[Op.write GADGET_NAME PULLUP_PATH, Op.usleep PULL_UP_DELAY,
              Op.setCurrentUsbFunctionsCb functions Status.SUCCESS,
              Op.write "1" DESC_USE_PATH], by simp [h1, hb, h2], by simp [h1, hb, h2],
              fun _ => ⟨⟨[], _, rfl, by simpa using h1⟩, by simp [notifications],
                Or.inr ⟨by simp [h1, hb, h2], _, Bool.eq_false_iff.2 h2⟩⟩⟩
        · exact ⟨[Op.write GADGET_NAME PULLUP_PATH, Op.usleep PULL_UP_DELAY,
            Op.setCurrentUsbFunctionsCb functions Status.SUCCESS], by simp [h1, hb],
            by simp [h1, hb],
            fun _ => ⟨⟨[], _, rfl, by simpa using h1⟩, by simp [notifications],
              Or.inl (by simp [h1, hb])⟩⟩
  · cases ffs
    · exact ⟨[Op.write GADGET_NAME PULLUP_PATH], by simp [h1], by simp [h1],
        fun h => by simp [h1, hg] at h⟩
    · cases callback
      · exact ⟨[], by simp, by simp, fun h => by simp [hg] at h⟩
      · by_cases hb : functions &&& GadgetFunction.MTP ≠ 0 ∨ functions &&& GadgetFunction.PTP ≠ 0
        · by_cases h2 : env (w.log.length + 1 + 1) (Op.write "1" DESC_USE_PATH) = true
          · exact ⟨[Op.write GADGET_NAME PULLUP_PATH,
              Op.setCurrentUsbFunctionsCb functions Status.ERROR, Op.write "1" DESC_USE_PATH],
              by simp [h1, hb, h2], by simp [h1, hb, h2], fun h => by simp [h1, hb, h2] at h⟩
          · exact ⟨[Op.write GADGET_NAME PULLUP_PATH,
              Op.setCurrentUsbFunctionsCb functions Status.ERROR, Op.write "1" DESC_USE_PATH],
              by simp [h1, hb, h2], by simp [h1, hb, h2], fun h => by simp [h1, hb, h2] at h⟩
        · exact ⟨[Op.write GADGET_NAME PULLUP_PATH,
            Op.setCurrentUsbFunctionsCb functions Status.ERROR], by simp [h1, hb],
            by simp [h1, hb], fun h => by simp [h1, hb] at h⟩

/-- A call that is not a notification, made before the rest of
`setupFunctions`, does not change what the rest establishes about `applied`. -/
theorem AppliedBySetup_after (env : Env) (g : Gadget) (w w1 : World) (op : Op)
    (r : Status × Gadget × World) (hlog : w1.log = w.log ++ [op])
    (hop : notifications [op] = []) (h : AppliedBySetup env g w1 r) :
    AppliedBySetup env g w r := by
  obtain ⟨ops, h1, h2, h3⟩ := h
  refine ⟨op :: ops, by rw [h1, hlog]; simp, h2, fun ha => ?_⟩
  obtain ⟨⟨pre, post, hp, he⟩, hn, hs⟩ := h3 ha
  have e : notifications (op :: ops) = notifications ops := by
    have := notifications_append [op] ops
    simpa [hop] using this
  refine ⟨⟨op :: pre, post, by rw [hp]; rfl, ?_⟩, by rw [e]; exact hn, hs⟩
  have hl : w1.log.length = w.log.length + 1 := by rw [hlog]; simp
  rw [hl] at he
  have ha2 : w.log.length + (op :: pre).length = w.log.length + 1 + pre.length := by
    simp only [List.length_cons]; omega
  rw [ha2]
  exact he

/-- A failed call followed by `return ERROR` leaves `applied` as it was. -/
theorem AppliedBySetup_abort (env : Env) (g : Gadget) (w w1 : World) (op : Op)
    (hg : g.mCurrentUsbFunctionsApplied = false) (hlog : w1.log = w.log ++ [op]) :
    AppliedBySetup env g w (Status.ERROR, g, w1) :=
  ⟨[op], hlog, rfl, fun h => by rw [hg] at h; cases h⟩

theorem linkBlock_appliedInv (env : Env) (g : Gadget) (functions bit : Nat) (name : String)
    (hg : g.mCurrentUsbFunctionsApplied = false)
    (next : Nat → World → Status × Gadget × World)
    (hnext : ∀ j w1, AppliedBySetup env g w1 (next j w1))
    (i : Nat) (w : World) :
    AppliedBySetup env g w
      (if functions &&& bit ≠ 0 then
         (if (linkFunction env name i w).1 ≠ 0 then
            (Status.ERROR, g, (linkFunction env name i w).2)
          else next (i + 1) (linkFunction env name i w).2)
       else next i w) := by
  by_cases hb : functions &&& bit ≠ 0
  · rw [if_pos hb]
    split
    · exact AppliedBySetup_abort env g w _ _ hg (linkFunction_log _ _ _ _)
    · exact AppliedBySetup_after env g w _ _ _ (linkFunction_log _ _ _ _) rfl (hnext _ _)
  · rw [if_neg hb]; exact hnext _ _

theorem setupMidi_appliedInv (env : Env) (g : Gadget) (functions : Nat) (callback ffs : Bool)
    (i : Nat) (w : World) (hg : g.mCurrentUsbFunctionsApplied = false) :
    AppliedBySetup env g w (setupMidi env g functions callback ffs i w) := by
  have hAdb : ∀ j w1, AppliedBySetup env g w1 (setupAdb env g functions callback ffs j w1) := by
    intro j w1
    unfold setupAdb
    by_cases hb : functions &&& GadgetFunction.ADB ≠ 0
    · simp only []
      rw [if_pos hb]
      split
      · exact AppliedBySetup_abort env g w1 _ _ hg (linkFunction_log _ _ _ _)
      · exact AppliedBySetup_after env g w1 _ _ _ (linkFunction_log _ _ _ _) rfl
          (setupPullUp_appliedInv env g functions callback true _ hg)
    · rw [if_neg hb]; exact setupPullUp_appliedInv env g functions callback ffs w1 hg
  have hRndis : ∀ j w1,
      AppliedBySetup env g w1 (setupRndis env g functions callback ffs j w1) := fun j w1 =>
    linkBlock_appliedInv env g functions GadgetFunction.RNDIS "rndis.gs4" hg
      (fun j w1 => setupAdb env g functions callback ffs j w1) hAdb j w1
  have hAudio : ∀ j w1,
      AppliedBySetup env g w1 (setupAudioSource env g functions callback ffs j w1) :=
    fun j w1 => linkBlock_appliedInv env g functions GadgetFunction.AUDIO_SOURCE
      "audio_source.gs3" hg (fun j w1 => setupRndis env g functions callback ffs j w1)
      hRndis j w1
  have hAcc : ∀ j w1,
      AppliedBySetup env g w1 (setupAccessory env g functions callback ffs j w1) :=
    fun j w1 => linkBlock_appliedInv env g functions GadgetFunction.ACCESSORY "accessory.gs2" hg
      (fun j w1 => setupAudioSource env g functions callback ffs j w1) hAudio j w1
  exact linkBlock_appliedInv env g functions GadgetFunction.MIDI "midi.gs5" hg
    (fun j w1 => setupAccessory env g functions callback ffs j w1) hAcc i w

theorem setupFunctions_appliedInv (env : Env) (g : Gadget) (functions : Nat) (callback : Bool)
    (timeout : Nat) (w : World) (hg : g.mCurrentUsbFunctionsApplied = false) :
    AppliedBySetup env g w (setupFunctions env g functions callback timeout w) := by
  unfold setupFunctions
  simp only []
  split
  · split
    · exact AppliedBySetup_abort env g w _ _ hg (WriteStringToFile_log _ _ _ _)
    · refine AppliedBySetup_after env g w
        (WriteStringToFile env "MTP" STRING_PATH w).2 (Op.write "MTP" STRING_PATH) _
        (WriteStringToFile_log _ _ _ _) rfl ?_
      split
      · exact AppliedBySetup_abort env g _ _ _ hg (linkFunction_log _ _ _ _)
      · exact AppliedBySetup_after env g _ _ _ _ (linkFunction_log _ _ _ _) rfl
          (setupMidi_appliedInv env g functions callback true 2 _ hg)
  · split
    · split
      · exact AppliedBySetup_abort env g w _ _ hg (WriteStringToFile_log _ _ _ _)
      · refine AppliedBySetup_after env g w
          (WriteStringToFile env "PTP" STRING_PATH w).2 (Op.write "PTP" STRING_PATH) _
          (WriteStringToFile_log _ _ _ _) rfl ?_
        split
        · exact AppliedBySetup_abort env g _ _ _ hg (linkFunction_log _ _ _ _)
        · exact AppliedBySetup_after env g _ _ _ _ (linkFunction_log _ _ _ _) rfl
            (setupMidi_appliedInv env g functions callback true 2 _ hg)
    · exact setupMidi_appliedInv env g functions callback false 1 w hg

/-- The prior state of the gadget has no influence on `setCurrentUsbFunctions`:
the requested set is recorded and `applied` is cleared before teardown. -/
theorem setCurrentUsbFunctions_prior_state (env : Env) (g g1 : Gadget) (functions : Nat)
    (callback : Bool) (timeout : Nat) (w : World) :
    setCurrentUsbFunctions env g functions callback timeout w =
      setCurrentUsbFunctions env g1 functions callback timeout w := rfl

theorem setCurrentUsbFunctionsError_spec (env : Env) (g : Gadget) (functions : Nat)
    (callback : Bool) (status : Status) (w : World) :
    (setCurrentUsbFunctionsError env g functions callback status w).1 = g ∧
    (setCurrentUsbFunctionsError env g functions callback status w).2.log =
      w.log ++ (if callback then [Op.setCurrentUsbFunctionsCb functions status] else []) := by
  unfold setCurrentUsbFunctionsError
  cases callback <;> simp

/-- General form of the `applied` invariant: after `setCurrentUsbFunctions` the
state holds the requested set, and `applied` is true only if the controller
name was written to the pull-up node with success during the call and,
moreover, either every status told to the listener is SUCCESS or a write of
"1" to the OS-descriptor-use node failed. -/
theorem setCurrentUsbFunctions_applied_only_if (env : Env) (g : Gadget) (functions : Nat)
    (callback : Bool) (timeout : Nat) (w : World) :
    (setCurrentUsbFunctions env g functions callback timeout w).1.mCurrentUsbFunctions =
      functions ∧
    ((setCurrentUsbFunctions env g functions callback timeout w).1.mCurrentUsbFunctionsApplied
        = true →
      (∃ pre post,
        callsAfter w.log.length (setCurrentUsbFunctions env g functions callback timeout w).2 =
          pre ++ Op.write GADGET_NAME PULLUP_PATH :: post ∧
        env (w.log.length + pre.length) (Op.write GADGET_NAME PULLUP_PATH) = true) ∧
      ((∀ p ∈ notifications (callsAfter w.log.length
            (setCurrentUsbFunctions env g functions callback timeout w).2),
          p.2 = Status.SUCCESS) ∨
        ∃ n, env n (Op.write "1" DESC_USE_PATH) = false)) := by
  obtain ⟨tops, htl, htops⟩ := tearDownGadget_calls env w
  have htn : notifications tops = [] :=
    notifications_eq_nil tops (fun op ho => isTearDownCall_not_notification op (htops op ho))
  unfold setCurrentUsbFunctions
  simp only []
  split
  · rw [(setCurrentUsbFunctionsError_spec _ _ _ _ _ _).1]
    exact ⟨rfl, fun h => by cases h⟩
  split
  · split <;> exact ⟨rfl, fun h => by cases h⟩
  split
  · rw [(setCurrentUsbFunctionsError_spec _ _ _ _ _ _).1]
    exact ⟨rfl, fun h => by cases h⟩
  obtain ⟨vops, hvl, hvn⟩ := validateAndSetVidPid_calls env functions
    (usleep DISCONNECT_WAIT_US (tearDownGadget env w).2)
  obtain ⟨sops, hsl, hsf, hsa⟩ := setupFunctions_appliedInv env
    { g with mCurrentUsbFunctions := functions, mCurrentUsbFunctionsApplied := false }
    functions callback timeout
    (validateAndSetVidPid env functions (usleep DISCONNECT_WAIT_US (tearDownGadget env w).2)).2
    rfl
  have hvlog : (validateAndSetVidPid env functions
      (usleep DISCONNECT_WAIT_US (tearDownGadget env w).2)).2.log =
      w.log ++ (tops ++ Op.usleep DISCONNECT_WAIT_US :: vops) := by
    rw [hvl, usleep_log, htl]; simp
  have hmidn : notifications (tops ++ Op.usleep DISCONNECT_WAIT_US :: vops) = [] := by
    rw [notifications_append, htn]
    simpa [notifications] using hvn
  have hshift : ∀ pre post tail, sops = pre ++ Op.write GADGET_NAME PULLUP_PATH :: post →
      env ((validateAndSetVidPid env functions
        (usleep DISCONNECT_WAIT_US (tearDownGadget env w).2)).2.log.length + pre.length)
        (Op.write GADGET_NAME PULLUP_PATH) = true →
      ∃ pre1 post1,
        (tops ++ Op.usleep DISCONNECT_WAIT_US :: vops) ++ sops ++ tail =
          pre1 ++ Op.write GADGET_NAME PULLUP_PATH :: post1 ∧
        env (w.log.length + pre1.length) (Op.write GADGET_NAME PULLUP_PATH) = true := by
    intro pre post tail hp he
    refine ⟨(tops ++ Op.usleep DISCONNECT_WAIT_US :: vops) ++ pre, post ++ tail, ?_, ?_⟩
    · rw [hp]; simp
    · rw [hvlog] at he
      simp only [List.length_append] at he ⊢
      rw [← Nat.add_assoc]
      exact he
  split
  · rename_i hfail
    obtain ⟨e1, e2⟩ := setCurrentUsbFunctionsError_spec env
      (setupFunctions env
        { g with mCurrentUsbFunctions := functions, mCurrentUsbFunctionsApplied := false }
        functions callback timeout
        (validateAndSetVidPid env functions
          (usleep DISCONNECT_WAIT_US (tearDownGadget env w).2)).2).2.1
      functions callback
      (setupFunctions env
        { g with mCurrentUsbFunctions := functions, mCurrentUsbFunctionsApplied := false }
        functions callback timeout
        (validateAndSetVidPid env functions
          (usleep DISCONNECT_WAIT_US (tearDownGadget env w).2)).2).1
      (setupFunctions env
        { g with mCurrentUsbFunctions := functions, mCurrentUsbFunctionsApplied := false }
        functions callback timeout
        (validateAndSetVidPid env functions
          (usleep DISCONNECT_WAIT_US (tearDownGadget env w).2)).2).2.2
    rw [e1]
    refine ⟨hsf, fun ha => ?_⟩
    obtain ⟨⟨pre, post, hp, he⟩, -, hs⟩ := hsa ha
    refine ⟨?_, Or.inr ?_⟩
    · obtain ⟨pre1, post1, h1, h2⟩ := hshift pre post
        (if callback then
          [Op.setCurrentUsbFunctionsCb functions
            (setupFunctions env
              { g with mCurrentUsbFunctions := functions, mCurrentUsbFunctionsApplied := false }
              functions callback timeout
              (validateAndSetVidPid env functions
                (usleep DISCONNECT_WAIT_US (tearDownGadget env w).2)).2).1]
         else []) hp he
      refine ⟨pre1, post1, ?_, h2⟩
      rw [callsAfter, e2, hsl, hvlog, ← h1]
      simp
    · rcases hs with hs | ⟨-, hs⟩
      · exact absurd hs hfail
      · exact hs
  · rename_i hok
    refine ⟨hsf, fun ha => ?_⟩
    obtain ⟨⟨pre, post, hp, he⟩, hn, -⟩ := hsa ha
    refine ⟨?_, Or.inl ?_⟩
    · obtain ⟨pre1, post1, h1, h2⟩ := hshift pre post [] hp he
      refine ⟨pre1, post1, ?_, h2⟩
      rw [callsAfter, hsl, hvlog, ← h1]
      simp
    · intro p hp2
      apply hn p
      rw [callsAfter, hsl, hvlog] at hp2
      simp only [List.append_assoc, List.drop_left] at hp2
      rw [← List.append_assoc, notifications_append, hmidn] at hp2
      simpa using hp2

end UsbGadget

/-! ## Theorems about `Usb.cpp` -/

namespace Usb

@[simp] theorem fopen_log (env : Env) (f m : String) (w : World) :
    (fopen env f m w).2.log = w.log ++ [Op.fopen f m] := rfl

@[simp] theorem fopen_nodes (env : Env) (f m : String) (w : World) :
    (fopen env f m w).2.nodes = w.nodes := rfl

@[simp] theorem fopen_fst (env : Env) (f m : String) (w : World) :
    (fopen env f m w).1 = env.ok w.log.length (Op.fopen f m) := rfl

@[simp] theorem fputs_log (env : Env) (s f : String) (w : World) :
    (fputs env s f w).2.log = w.log ++ [Op.fputs s f] := rfl

@[simp] theorem fputs_fst (env : Env) (s f : String) (w : World) :
    (fputs env s f w).1 = env.ok w.log.length (Op.fputs s f) := rfl

@[simp] theorem fputs_nodes_self (env : Env) (s f : String) (w : World) :
    (fputs env s f w).2.nodes f = env.store w.log.length (w.nodes f) s := by
  simp [fputs]

@[simp] theorem getline_log (env : Env) (f : String) (w : World) :
    (getline env f w).2.log = w.log ++ [Op.getline f] := rfl

@[simp] theorem getline_nodes (env : Env) (f : String) (w : World) :
    (getline env f w).2.nodes = w.nodes := rfl

@[simp] theorem notifyCall_log (env : Env) (op : Op) (w : World) :
    (callListener env op w).2.log = w.log ++ [op] := rfl

@[simp] theorem notifyCall_nodes (env : Env) (op : Op) (w : World) :
    (callListener env op w).2.nodes = w.nodes := rfl

@[simp] theorem notifyCall_fst (env : Env) (op : Op) (w : World) :
    (callListener env op w).1 = env.ok w.log.length op := rfl

theorem roleSwitchNotifications_append (l1 l2 : List Op) :
    roleSwitchNotifications (l1 ++ l2) =
      roleSwitchNotifications l1 ++ roleSwitchNotifications l2 := by
  induction l1 with
  | nil => rfl
  | cons op l ih => cases op <;> simp [roleSwitchNotifications, ih]

theorem portStatusNotifications_append (l1 l2 : List Op) :
    portStatusNotifications (l1 ++ l2) =
      portStatusNotifications l1 + portStatusNotifications l2 := by
  induction l1 with
  | nil => simp [portStatusNotifications]
  | cons op l ih => cases op <;> simp [portStatusNotifications, ih] <;> omega

/-- What `readFile` does: it returns 0 exactly when the node can be opened,
leaves the nodes alone, and stores the text of the first line when a line is
read. -/
theorem readFile_spec (env : Env) (f c : String) (w : World) :
    ((readFile env f c w).1 = 0 ↔ env.ok w.log.length (Op.fopen f "r") = true) ∧
    (readFile env f c w).2.2.nodes = w.nodes ∧
    (readFile env f c w).2.2.log =
      w.log ++ (if env.ok w.log.length (Op.fopen f "r") = true
                then [Op.fopen f "r", Op.getline f] else [Op.fopen f "r"]) ∧
    (readFile env f c w).2.1 =
      (if env.ok w.log.length (Op.fopen f "r") = true ∧
          env.ok (w.log.length + 1) (Op.getline f) = true ∧ w.nodes f ≠ []
       then lineText (w.nodes f) else c) := by
  unfold readFile
  simp only []
  by_cases ho : env.ok w.log.length (Op.fopen f "r") = true
  · simp only [fopen_fst, ho, if_true, true_and]
    by_cases hg : env.ok (w.log.length + 1) (Op.getline f) = true ∧ w.nodes f ≠ []
    · have : (getline env f (fopen env f "r" w).2).1 = some (firstLine (w.nodes f)) := by
        simp [getline, hg.1, hg.2]
      simp [this, hg, lineText]
    · have : (getline env f (fopen env f "r" w).2).1 = none := by
        simp only [getline, fopen_log, List.length_append, List.length_singleton, fopen_nodes,
          ite_eq_right_iff]
        intro h
        exact absurd h hg
      simp [this, hg]
  · simp [ho]

/-- On a node whose bytes hold no NUL, the text read back is the first line
without its line feed. -/
theorem lineText_of_no_nul (content : List Char) (h : ∀ c ∈ content, c ≠ Char.ofNat 0) :
    lineText content = String.mk (content.takeWhile (fun c => c ≠ '\n')) := by
  unfold lineText stripLine cString
  congr 1
  induction content with
  | nil => rfl
  | cons c cs ih =>
    have hc : c ≠ Char.ofNat 0 := h c (List.mem_cons_self _ _)
    have hcs := ih (fun d hd => h d (List.mem_cons_of_mem _ hd))
    by_cases hn : c = '\n'
    · subst hn
      simp [firstLine, List.takeWhile]
    · simp only [firstLine, if_neg hn, List.takeWhile, hc, hn, ne_eq, not_false_eq_true,
        decide_True]
      exact congrArg _ hcs

theorem convertRoletoString_ne_empty (role : PortRole) : convertRoletoString role ≠ "" := by
  unfold convertRoletoString
  split_ifs <;> decide

/-- What the role-switch part of `switchRole` does for a DATA_ROLE request:
`roleSwitch` is true exactly when the write is verified, the calls are file
calls only, and after a verified write the node reads back as the written
string. -/
theorem switchRoleWrite_spec (env : Env) (newRole : PortRole) (w : World)
    (hty : newRole.type = PortRoleType.DATA_ROLE) :
    ((switchRoleWrite env newRole w).1 = true ↔ roleWriteVerified env newRole w) ∧
    (∃ ops, (switchRoleWrite env newRole w).2.log = w.log ++ ops ∧
      roleSwitchNotifications ops = [] ∧ portStatusNotifications ops = 0) ∧
    ((switchRoleWrite env newRole w).1 = true →
      lineText ((switchRoleWrite env newRole w).2.nodes MODE_CHANGE) =
        convertRoletoString newRole) := by
  have hne := convertRoletoString_ne_empty newRole
  unfold switchRoleWrite roleWriteVerified
  simp only [hty, if_true]
  by_cases ha : env.ok w.log.length (Op.fopen MODE_CHANGE "w") = true
  · simp only [fopen_fst, ha, if_true, true_and]
    by_cases hb : env.ok (w.log.length + 1)
        (Op.fputs (convertRoletoString newRole) MODE_CHANGE) = true
    · have hb2 : (fputs env (convertRoletoString newRole) MODE_CHANGE
          (fopen env MODE_CHANGE "w" w).2).1 = true := by simpa using hb
      simp only [hb2, hb, if_true, true_and]
      obtain ⟨h1, h2, h3, h4⟩ := readFile_spec env MODE_CHANGE ""
        (fputs env (convertRoletoString newRole) MODE_CHANGE (fopen env MODE_CHANGE "w" w).2).2
      simp only [fputs_log, fopen_log, List.length_append, List.length_singleton,
        fputs_nodes_self, fopen_nodes] at h1 h3 h4
      by_cases hc : env.ok (w.log.length + 1 + 1) (Op.fopen MODE_CHANGE "r") = true
      · have hc2 : env.ok (w.log.length + 2) (Op.fopen MODE_CHANGE "r") = true := hc
        simp only [hc, if_true, true_and] at h3 h4
        rw [if_pos (h1.2 hc)]
        by_cases hd : env.ok (w.log.length + 1 + 1 + 1) (Op.getline MODE_CHANGE) = true ∧
            env.store (w.log.length + 1) (w.nodes MODE_CHANGE) (convertRoletoString newRole) ≠ []
        · have hd2 : env.ok (w.log.length + 3) (Op.getline MODE_CHANGE) = true ∧
              env.store (w.log.length + 1) (w.nodes MODE_CHANGE)
                (convertRoletoString newRole) ≠ [] := hd
          rw [if_pos hd] at h4
          rw [h4]
          by_cases he : lineText (env.store (w.log.length + 1) (w.nodes MODE_CHANGE)
              (convertRoletoString newRole)) = convertRoletoString newRole
          · rw [if_pos he]
            refine ⟨by simp [hc2, hd2, he], ⟨[Op.fopen MODE_CHANGE "w", Op.fputs (convertRoletoString newRole) MODE_CHANGE,
              Op.fopen MODE_CHANGE "r", Op.getline MODE_CHANGE], by rw [h3]; simp, by
              simp [roleSwitchNotifications, portStatusNotifications]⟩, fun _ => ?_⟩
            rw [h2, fputs_nodes_self]
            simpa using he
          · rw [if_neg he]
            refine ⟨by simp [he], ⟨[Op.fopen MODE_CHANGE "w", Op.fputs (convertRoletoString newRole) MODE_CHANGE,
              Op.fopen MODE_CHANGE "r", Op.getline MODE_CHANGE], by rw [h3]; simp, by
              simp [roleSwitchNotifications, portStatusNotifications]⟩, fun h => by cases h⟩
        · have hd2 : ¬(env.ok (w.log.length + 3) (Op.getline MODE_CHANGE) = true ∧
              env.store (w.log.length + 1) (w.nodes MODE_CHANGE)
                (convertRoletoString newRole) ≠ []) := hd
          rw [if_neg hd] at h4
          rw [h4, if_neg (Ne.symm hne)]
          refine ⟨by simp only [false_iff]; tauto, ⟨[Op.fopen MODE_CHANGE "w", Op.fputs (convertRoletoString newRole) MODE_CHANGE,
              Op.fopen MODE_CHANGE "r", Op.getline MODE_CHANGE], by rw [h3]; simp, by
              simp [roleSwitchNotifications, portStatusNotifications]⟩, fun h => by cases h⟩
      · have hc2 : ¬env.ok (w.log.length + 2) (Op.fopen MODE_CHANGE "r") = true := hc
        simp only [hc, if_false] at h3
        rw [if_neg (fun h => hc (h1.1 h))]
        refine ⟨by simp [hc2], ⟨[Op.fopen MODE_CHANGE "w",
          Op.fputs (convertRoletoString newRole) MODE_CHANGE, Op.fopen MODE_CHANGE "r"],
          by rw [h3]; simp, by
          simp [roleSwitchNotifications, portStatusNotifications]⟩, fun h => by cases h⟩
    · have hb2 : ¬(fputs env (convertRoletoString newRole) MODE_CHANGE
          (fopen env MODE_CHANGE "w" w).2).1 = true := by simpa using hb
      rw [if_neg hb2]
      refine ⟨by simp [hb], ⟨[Op.fopen MODE_CHANGE "w",
        Op.fputs (convertRoletoString newRole) MODE_CHANGE], by simp, by
        simp [roleSwitchNotifications, portStatusNotifications]⟩, fun h => by cases h⟩
  · simp only [fopen_fst, ha, if_false, false_and]
    refine ⟨by simp, ⟨[Op.fopen MODE_CHANGE "w"], by simp, by
      simp [roleSwitchNotifications, portStatusNotifications]⟩, fun h => by cases h⟩

/-- What `getCurrentRole` returns: HOST or DEVICE when a line is read and its
text is "host" or "device", NONE otherwise; the nodes are left alone and the
calls are file calls only. -/
theorem getCurrentRole_spec (env : Env) (w : World) :
    (getCurrentRole env w).1 =
      (if roleReadOk env w then
         (if lineText (w.nodes MODE_CHANGE) = "host" then PortDataRole.HOST
          else if lineText (w.nodes MODE_CHANGE) = "device" then PortDataRole.DEVICE
          else PortDataRole.NONE)
       else PortDataRole.NONE) ∧
    (getCurrentRole env w).2.nodes = w.nodes ∧
    (∃ ops, (getCurrentRole env w).2.log = w.log ++ ops ∧
      roleSwitchNotifications ops = [] ∧ portStatusNotifications ops = 0) := by
  obtain ⟨h1, h2, h3, h4⟩ := readFile_spec env MODE_CHANGE "" w
  have hlog : ∃ ops, (readFile env MODE_CHANGE "" w).2.2.log = w.log ++ ops ∧
      roleSwitchNotifications ops = [] ∧ portStatusNotifications ops = 0 := by
    refine ⟨_, h3, ?_⟩
    split <;> simp [roleSwitchNotifications, portStatusNotifications]
  have hfst : (getCurrentRole env w).2 = (readFile env MODE_CHANGE "" w).2.2 := by
    unfold getCurrentRole
    simp only []
    split_ifs <;> rfl
  refine ⟨?_, by rw [hfst, h2], by rw [hfst]; exact hlog⟩
  unfold getCurrentRole roleReadOk
  simp only []
  by_cases ho : env.ok w.log.length (Op.fopen MODE_CHANGE "r") = true
  · rw [if_pos (h1.2 ho), h4]
    by_cases hg : env.ok (w.log.length + 1) (Op.getline MODE_CHANGE) = true ∧
        w.nodes MODE_CHANGE ≠ []
    · have hc : env.ok w.log.length (Op.fopen MODE_CHANGE "r") = true ∧
          env.ok (w.log.length + 1) (Op.getline MODE_CHANGE) = true ∧
          w.nodes MODE_CHANGE ≠ [] := ⟨ho, hg⟩
      rw [if_pos hc, if_pos hc]
      by_cases hh : lineText (w.nodes MODE_CHANGE) = "host"
      · rw [if_pos hh, if_pos hh]
      · rw [if_neg hh, if_neg hh]
        by_cases hd : lineText (w.nodes MODE_CHANGE) = "device"
        · rw [if_pos hd, if_pos hd]
        · rw [if_neg hd, if_neg hd]
    · have hc : ¬(env.ok w.log.length (Op.fopen MODE_CHANGE "r") = true ∧
          env.ok (w.log.length + 1) (Op.getline MODE_CHANGE) = true ∧
          w.nodes MODE_CHANGE ≠ []) := fun h => hg h.2
      rw [if_neg hc, if_neg hc]
      rfl
  · rw [if_neg (fun h => ho (h1.1 h)), if_neg (fun h => ho h.1)]

/-- The status and the vector computed by `getPortStatusHelper` from a
one-entry vector, by the role that `getCurrentRole` returns. -/
theorem getPortStatusHelper_of_role (env : Env) (V1_0 : Bool) (w : World) :
    (getPortStatusHelper env [PortStatus_1_1.zero] V1_0 w).2.2 = (getCurrentRole env w).2 ∧
    ((getCurrentRole env w).1 = PortDataRole.NONE →
      (getPortStatusHelper env [PortStatus_1_1.zero] V1_0 w).1 = Status.ERROR ∧
      (getPortStatusHelper env [PortStatus_1_1.zero] V1_0 w).2.1 = [PortStatus_1_1.zero]) ∧
    ((getCurrentRole env w).1 = PortDataRole.HOST →
      (getPortStatusHelper env [PortStatus_1_1.zero] V1_0 w).1 = Status.SUCCESS ∧
      (getPortStatusHelper env [PortStatus_1_1.zero] V1_0 w).2.1 =
        [portEntry PortDataRole.HOST PortPowerRole.SOURCE V1_0]) ∧
    ((getCurrentRole env w).1 = PortDataRole.DEVICE →
      (getPortStatusHelper env [PortStatus_1_1.zero] V1_0 w).1 = Status.SUCCESS ∧
      (getPortStatusHelper env [PortStatus_1_1.zero] V1_0 w).2.1 =
        [portEntry PortDataRole.DEVICE PortPowerRole.SINK V1_0]) := by
  refine ⟨?_, ?_, ?_, ?_⟩
  · unfold getPortStatusHelper
    simp only []
    split_ifs <;> rfl
  · intro h
    unfold getPortStatusHelper
    simp [h]
  · intro h
    unfold getPortStatusHelper
    cases V1_0 <;>
      simp [h, portEntry, PortStatus_1_1.zero, PortStatus.zero, List.modifyHead,
        PortMode_1_1.UFP, PortMode_1_1.DFP, PortMode_1_1.DRP]
  · intro h
    unfold getPortStatusHelper
    cases V1_0 <;>
      simp [h, portEntry, PortStatus_1_1.zero, PortStatus.zero, List.modifyHead,
        PortMode_1_1.UFP, PortMode_1_1.DFP, PortMode_1_1.DRP]

/-- A status query with a registered listener leaves the nodes alone and
notifies the port status exactly once, and never a role switch. -/
theorem queryPortStatus_calls (env : Env) (u : UsbState) (k : ListenerKind) (w : World)
    (hcb : u.mCallback_1_0 = some k) :
    (queryPortStatus env u w).nodes = w.nodes ∧
    ∃ ops, (queryPortStatus env u w).log = w.log ++ ops ∧
      roleSwitchNotifications ops = [] ∧ portStatusNotifications ops = 1 := by
  have hx := fun V => (getPortStatusHelper_of_role env V w).1
  obtain ⟨-, hn, ops, hl, hr, hp⟩ := getCurrentRole_spec env w
  unfold queryPortStatus
  simp only [hcb]
  split
  · refine ⟨by simp [hx, hn],
      ops ++ [Op.notifyPortStatusChange_1_1
        (getPortStatusHelper env [PortStatus_1_1.zero] false w).2.1
        (getPortStatusHelper env [PortStatus_1_1.zero] false w).1], by simp [hx, hl], ?_, ?_⟩
    · simp [roleSwitchNotifications_append, hr, roleSwitchNotifications]
    · simp [portStatusNotifications_append, hp, portStatusNotifications]
  · refine ⟨by simp [hx, hn],
      ops ++ [Op.notifyPortStatusChange
        ([PortStatus.zero].modifyHead (fun p =>
          ((getPortStatusHelper env [PortStatus_1_1.zero] true w).2.1.head?.map
            (fun q => q.status)).getD p))
        (getPortStatusHelper env [PortStatus_1_1.zero] true w).1], by simp [hx, hl], ?_, ?_⟩
    · simp [roleSwitchNotifications_append, hr, roleSwitchNotifications]
    · simp [portStatusNotifications_append, hp, portStatusNotifications]

theorem switchRoleWrite_calls (env : Env) (newRole : PortRole) (w : World) :
    ∃ ops, (switchRoleWrite env newRole w).2.log = w.log ++ ops ∧
      roleSwitchNotifications ops = [] ∧ portStatusNotifications ops = 0 := by
  by_cases hty : newRole.type = PortRoleType.DATA_ROLE
  · exact (switchRoleWrite_spec env newRole w hty).2.1
  · refine ⟨[], ?_, rfl, rfl⟩
    unfold switchRoleWrite
    simp [hty]

theorem MODE_CHANGE_ne_empty : MODE_CHANGE ≠ "" := by decide

/-- With a registered listener, `switchRole` is the role-switch part, the
notification of its status, and a status query when that call succeeded. -/
theorem switchRole_eq (env : Env) (u : UsbState) (k : ListenerKind) (portName : String)
    (newRole : PortRole) (w : World) (hcb : u.mCallback_1_0 = some k) :
    switchRole env u portName newRole w =
      if env.ok (switchRoleWrite env newRole w).2.log.length
          (Op.notifyRoleSwitchStatus portName newRole
            (if (switchRoleWrite env newRole w).1 then Status.SUCCESS else Status.ERROR)) = true
      then
        queryPortStatus env u
          (callListener env
            (Op.notifyRoleSwitchStatus portName newRole
              (if (switchRoleWrite env newRole w).1 then Status.SUCCESS else Status.ERROR))
            (switchRoleWrite env newRole w).2).2
      else
        (callListener env
          (Op.notifyRoleSwitchStatus portName newRole
            (if (switchRoleWrite env newRole w).1 then Status.SUCCESS else Status.ERROR))
          (switchRoleWrite env newRole w).2).2 := by
  unfold switchRole
  rw [if_neg MODE_CHANGE_ne_empty]
  simp only [hcb, notifyCall_fst]
  by_cases hn : env.ok (switchRoleWrite env newRole w).2.log.length
      (Op.notifyRoleSwitchStatus portName newRole
        (if (switchRoleWrite env newRole w).1 then Status.SUCCESS else Status.ERROR)) = true
  · rw [if_pos hn, if_neg (by rw [hn]; decide)]
  · rw [if_neg hn, if_pos (Bool.eq_false_iff.2 hn)]

/-- For a DATA_ROLE request `convertRoletoString` yields the string form of the
specification: "host" for HOST, "device" for DEVICE, "none" otherwise. -/
theorem convertRoletoString_data (newRole : PortRole)
    (hty : newRole.type = PortRoleType.DATA_ROLE) :
    convertRoletoString newRole = dataRoleString newRole.role := by
  unfold convertRoletoString dataRoleString
  rw [if_neg (by rw [hty]; decide), if_pos hty]
  rfl

/-- The text that `readFile` stores is the first line of the node with its
line feed stripped. -/
theorem lineText_eq_firstLineStripped (content : List Char) :
    lineText content = firstLineStripped content := by
  unfold lineText stripLine cString firstLineStripped
  congr 1
  induction content with
  | nil => rfl
  | cons c cs ih =>
    by_cases hn : c = '\n'
    · subst hn
      simp [firstLine, List.takeWhile]
    · by_cases hz : c = Char.ofNat 0
      · subst hz
        simp [firstLine, List.takeWhile]
      · simp only [firstLine, if_neg hn, List.takeWhile, hz, hn, ne_eq, not_false_eq_true,
          decide_True, and_self]
        exact congrArg _ ih

/-- The verification that the code performs is the verification of the
specification. -/
theorem roleWriteVerified_iff (env : Env) (newRole : PortRole) (w : World)
    (hty : newRole.type = PortRoleType.DATA_ROLE) :
    roleWriteVerified env newRole w ↔ roleSwitchVerified env (dataRoleString newRole.role) w := by
  unfold roleWriteVerified roleSwitchVerified
  rw [convertRoletoString_data newRole hty, lineText_eq_firstLineStripped]
  tauto

/-- When the role node opens for writing, the first two calls of a DATA_ROLE
switch are the opening and the write of the string form of the role. -/
theorem switchRoleWrite_writes (env : Env) (newRole : PortRole) (w : World)
    (hty : newRole.type = PortRoleType.DATA_ROLE)
    (ha : env.ok w.log.length (Op.fopen MODE_CHANGE "w") = true) :
    ∃ rest, (switchRoleWrite env newRole w).2.log =
      w.log ++ Op.fopen MODE_CHANGE "w" ::
        Op.fputs (convertRoletoString newRole) MODE_CHANGE :: rest := by
  obtain ⟨-, -, h3, -⟩ := readFile_spec env MODE_CHANGE ""
    (fputs env (convertRoletoString newRole) MODE_CHANGE (fopen env MODE_CHANGE "w" w).2).2
  have key : ∀ b : Bool, ∃ rest,
      (b, (readFile env MODE_CHANGE ""
        (fputs env (convertRoletoString newRole) MODE_CHANGE
          (fopen env MODE_CHANGE "w" w).2).2).2.2).2.log =
      w.log ++ Op.fopen MODE_CHANGE "w" ::
        Op.fputs (convertRoletoString newRole) MODE_CHANGE :: rest := by
    intro b
    refine ⟨if env.ok
        (fputs env (convertRoletoString newRole) MODE_CHANGE
          (fopen env MODE_CHANGE "w" w).2).2.log.length (Op.fopen MODE_CHANGE "r") = true
      then [Op.fopen MODE_CHANGE "r", Op.getline MODE_CHANGE]
      else [Op.fopen MODE_CHANGE "r"], ?_⟩
    show (readFile env MODE_CHANGE ""
        (fputs env (convertRoletoString newRole) MODE_CHANGE
          (fopen env MODE_CHANGE "w" w).2).2).2.2.log = _
    rw [h3]
    simp
  unfold switchRoleWrite
  simp only [hty, if_true, fopen_fst, ha]
  split
  · split
    · split
      · exact key true
      · exact key false
    · exact key false
  · exact ⟨[], by simp⟩

/-- C7: for every DATA_ROLE request handled by `switchRole` with a registered
listener, `notifyRoleSwitchStatus` is called exactly once, and its status is
SUCCESS if and only if the role node could be opened for writing, the write
of the string form of the role ("host" for HOST, "device" for DEVICE)
completed, the node could be opened and a line read back, and the first line
read back, its line feed stripped, equals the written string exactly; in
every other case the status is ERROR.  When the node opens for writing, the
first two calls are the opening and the write of that string. -/
theorem switchRole_status (env : Env) (u : UsbState) (k : ListenerKind) (portName : String)
    (newRole : PortRole) (w : World) (hcb : u.mCallback_1_0 = some k)
    (hty : newRole.type = PortRoleType.DATA_ROLE) :
    ∃ status,
      roleSwitchNotifications
          (callsAfter w.log.length (switchRole env u portName newRole w)) =
        [(portName, newRole, status)] ∧
      (status = Status.SUCCESS ↔ roleSwitchVerified env (dataRoleString newRole.role) w) ∧
      (status = Status.ERROR ↔ ¬roleSwitchVerified env (dataRoleString newRole.role) w) ∧
      (env.ok w.log.length (Op.fopen MODE_CHANGE "w") = true →
        ∃ rest, callsAfter w.log.length (switchRole env u portName newRole w) =
          Op.fopen MODE_CHANGE "w" ::
            Op.fputs (dataRoleString newRole.role) MODE_CHANGE :: rest) := by
  obtain ⟨hv0, ⟨ops, hl, hr, -⟩, -⟩ := switchRoleWrite_spec env newRole w hty
  have hv := hv0.trans (roleWriteVerified_iff env newRole w hty)
  refine ⟨if (switchRoleWrite env newRole w).1 then Status.SUCCESS else Status.ERROR,
    ?_, ?_, ?_, ?_⟩
  · rw [switchRole_eq env u k portName newRole w hcb]
    by_cases hn : env.ok (switchRoleWrite env newRole w).2.log.length
        (Op.notifyRoleSwitchStatus portName newRole
          (if (switchRoleWrite env newRole w).1 then Status.SUCCESS else Status.ERROR)) = true
    · obtain ⟨-, qops, hq, hqr, -⟩ := queryPortStatus_calls env u k
        (callListener env
          (Op.notifyRoleSwitchStatus portName newRole
            (if (switchRoleWrite env newRole w).1 then Status.SUCCESS else Status.ERROR))
          (switchRoleWrite env newRole w).2).2 hcb
      rw [if_pos hn, callsAfter, hq, notifyCall_log, hl]
      simp [roleSwitchNotifications_append, hr, hqr, roleSwitchNotifications]
    · rw [if_neg hn, callsAfter, notifyCall_log, hl]
      simp [roleSwitchNotifications_append, hr, roleSwitchNotifications]
  · rw [← hv]
    cases (switchRoleWrite env newRole w).1 <;> simp
  · rw [← hv]
    cases (switchRoleWrite env newRole w).1 <;> simp
  · intro ha
    obtain ⟨rest, hrest⟩ := switchRoleWrite_writes env newRole w hty ha
    rw [convertRoletoString_data newRole hty] at hrest
    rw [switchRole_eq env u k portName newRole w hcb]
    by_cases hn : env.ok (switchRoleWrite env newRole w).2.log.length
        (Op.notifyRoleSwitchStatus portName newRole
          (if (switchRoleWrite env newRole w).1 then Status.SUCCESS else Status.ERROR)) = true
    · obtain ⟨-, qops, hq, -, -⟩ := queryPortStatus_calls env u k
        (callListener env
          (Op.notifyRoleSwitchStatus portName newRole
            (if (switchRoleWrite env newRole w).1 then Status.SUCCESS else Status.ERROR))
          (switchRoleWrite env newRole w).2).2 hcb
      rw [if_pos hn, callsAfter, hq, notifyCall_log, hrest]
      exact ⟨rest ++ [Op.notifyRoleSwitchStatus portName newRole
        (if (switchRoleWrite env newRole w).1 then Status.SUCCESS else Status.ERROR)] ++ qops,
        by simp⟩
    · rw [if_neg hn, callsAfter, notifyCall_log, hrest]
      exact ⟨rest ++ [Op.notifyRoleSwitchStatus portName newRole
        (if (switchRoleWrite env newRole w).1 then Status.SUCCESS else Status.ERROR)],
        by simp⟩

/-- Witness of C7: the role DEVICE is requested on a port in host mode, every
call succeeds and the node shows the written string: the write of "device"
is verified and the one status notified is SUCCESS. -/
theorem switchRole_status_witness :
    roleSwitchVerified envAllOk "device" worldHost ∧
    roleSwitchNotifications
        (callsAfter worldHost.log.length
          (switchRole envAllOk { mCallback_1_0 := some ListenerKind.base } "otg" roleDevice
            worldHost)) =
      [("otg", roleDevice, Status.SUCCESS)] := by
  have hv : roleSwitchVerified envAllOk "device" worldHost := by decide
  obtain ⟨status, h1, h2, -, -⟩ :=
    switchRole_status envAllOk { mCallback_1_0 := some ListenerKind.base } ListenerKind.base
      "otg" roleDevice worldHost rfl rfl
  have hs : status = Status.SUCCESS := h2.2 hv
  rw [hs] at h1
  exact ⟨hv, h1⟩

/-- Scenario HOST: the role HOST is requested on a port in device mode and every
call succeeds.  The string written is "host", it is read back, and the status
notified is SUCCESS; the status query that follows reports HOST / SOURCE. -/
theorem switchRole_host_calls :
    callsAfter worldDevice.log.length
        (switchRole envAllOk { mCallback_1_0 := some ListenerKind.base } "otg" roleHost
          worldDevice) =
      [Op.fopen MODE_CHANGE "w", Op.fputs "host" MODE_CHANGE, Op.fopen MODE_CHANGE "r",
       Op.getline MODE_CHANGE, Op.notifyRoleSwitchStatus "otg" roleHost Status.SUCCESS,
       Op.fopen MODE_CHANGE "r", Op.getline MODE_CHANGE,
       Op.notifyPortStatusChange
         [(portEntry PortDataRole.HOST PortPowerRole.SOURCE true).status] Status.SUCCESS] := by
  decide

/-- Scenario DEVICE: the role DEVICE is requested on a port in host mode and
every call succeeds.  The string written is "device" and the status notified
is SUCCESS. -/
theorem switchRole_device_calls :
    (callsAfter worldHost.log.length
        (switchRole envAllOk { mCallback_1_0 := some ListenerKind.base } "otg" roleDevice
          worldHost)).take 5 =
      [Op.fopen MODE_CHANGE "w", Op.fputs "device" MODE_CHANGE, Op.fopen MODE_CHANGE "r",
       Op.getline MODE_CHANGE, Op.notifyRoleSwitchStatus "otg" roleDevice Status.SUCCESS] := by
  decide

/-- Mismatch detection: the role DEVICE is requested on a port in host mode,
every call succeeds at the system-call level, but the hardware refuses the
value and the node still reads "host".  The status notified is ERROR. -/
theorem switchRole_mismatch_reports_error :
    roleSwitchNotifications
        (callsAfter worldHost.log.length
          (switchRole envWriteRefused { mCallback_1_0 := some ListenerKind.base } "otg"
            roleDevice worldHost)) =
      [("otg", roleDevice, Status.ERROR)] ∧
    ¬roleSwitchVerified envWriteRefused "device" worldHost := by
  decide

/-- Exact comparison: a node that shows "device" without a line feed verifies
the write of "device" (SUCCESS), a node that shows the longer line "devices"
does not (ERROR), and a node that cannot be opened for writing gives ERROR
without any write. -/
theorem switchRole_exact_comparison :
    roleSwitchNotifications
        (callsAfter worldHost.log.length
          (switchRole envNoLineFeed { mCallback_1_0 := some ListenerKind.base } "otg"
            roleDevice worldHost)) =
      [("otg", roleDevice, Status.SUCCESS)] ∧
    roleSwitchNotifications
        (callsAfter worldHost.log.length
          (switchRole envLongerLine { mCallback_1_0 := some ListenerKind.base } "otg"
            roleDevice worldHost)) =
      [("otg", roleDevice, Status.ERROR)] ∧
    (callsAfter worldHost.log.length
        (switchRole envOpenFails { mCallback_1_0 := some ListenerKind.base } "otg"
          roleDevice worldHost)).take 2 =
      [Op.fopen MODE_CHANGE "w", Op.notifyRoleSwitchStatus "otg" roleDevice Status.ERROR] := by
  decide

/-- The nodes after `switchRole` are those after its role-switch part. -/
theorem switchRole_nodes (env : Env) (u : UsbState) (portName : String) (newRole : PortRole)
    (w : World) :
    (switchRole env u portName newRole w).nodes = (switchRoleWrite env newRole w).2.nodes := by
  cases hcb : u.mCallback_1_0 with
  | none =>
    unfold switchRole
    rw [if_neg MODE_CHANGE_ne_empty]
    simp [hcb]
  | some k =>
    rw [switchRole_eq env u k portName newRole w hcb]
    by_cases hn : env.ok (switchRoleWrite env newRole w).2.log.length
        (Op.notifyRoleSwitchStatus portName newRole
          (if (switchRoleWrite env newRole w).1 then Status.SUCCESS else Status.ERROR)) = true
    · rw [if_pos hn, (queryPortStatus_calls env u k _ hcb).1]; rfl
    · rw [if_neg hn]; rfl

/-- C8: the port status that `getPortStatusHelper` computes for a status
query from a one-entry vector.  When the role node reads "device" the status
is SUCCESS and the entry is port "otg" with DEVICE / SINK; when it reads
"host" the status is SUCCESS and the entry has HOST / SOURCE; in both cases
the mode is DRP and the flags are `canChangeMode = false`,
`canChangeDataRole = true`, `canChangePowerRole = true`.  When the read fails
the status is ERROR and the entry keeps its initial value.  After a role
switch to DEVICE whose write was verified, a query whose read succeeds
reports DEVICE / SINK. -/
theorem getPortStatusHelper_report (env : Env) (u : UsbState) (portName : String)
    (V1_0 : Bool) (w : World) :
    (roleReadOk env w → lineText (w.nodes MODE_CHANGE) = "device" →
      (getPortStatusHelper env [PortStatus_1_1.zero] V1_0 w).1 = Status.SUCCESS ∧
      (getPortStatusHelper env [PortStatus_1_1.zero] V1_0 w).2.1 =
        [portEntry PortDataRole.DEVICE PortPowerRole.SINK V1_0]) ∧
    (roleReadOk env w → lineText (w.nodes MODE_CHANGE) = "host" →
      (getPortStatusHelper env [PortStatus_1_1.zero] V1_0 w).1 = Status.SUCCESS ∧
      (getPortStatusHelper env [PortStatus_1_1.zero] V1_0 w).2.1 =
        [portEntry PortDataRole.HOST PortPowerRole.SOURCE V1_0]) ∧
    (¬roleReadOk env w →
      (getPortStatusHelper env [PortStatus_1_1.zero] V1_0 w).1 = Status.ERROR ∧
      (getPortStatusHelper env [PortStatus_1_1.zero] V1_0 w).2.1 = [PortStatus_1_1.zero]) ∧
    (roleWriteVerified env roleDevice w →
      roleReadOk env (switchRole env u portName roleDevice w) →
      (getPortStatusHelper env [PortStatus_1_1.zero] V1_0
          (switchRole env u portName roleDevice w)).1 = Status.SUCCESS ∧
      (getPortStatusHelper env [PortStatus_1_1.zero] V1_0
          (switchRole env u portName roleDevice w)).2.1 =
        [portEntry PortDataRole.DEVICE PortPowerRole.SINK V1_0]) := by
  have hdev : ∀ w1 : World, roleReadOk env w1 → lineText (w1.nodes MODE_CHANGE) = "device" →
      (getPortStatusHelper env [PortStatus_1_1.zero] V1_0 w1).1 = Status.SUCCESS ∧
      (getPortStatusHelper env [PortStatus_1_1.zero] V1_0 w1).2.1 =
        [portEntry PortDataRole.DEVICE PortPowerRole.SINK V1_0] := by
    intro w1 hr ht
    have hrole : (getCurrentRole env w1).1 = PortDataRole.DEVICE := by
      rw [(getCurrentRole_spec env w1).1, if_pos hr, ht]
      rfl
    exact (getPortStatusHelper_of_role env V1_0 w1).2.2.2 hrole
  refine ⟨hdev w, ?_, ?_, ?_⟩
  · intro hr ht
    have hrole : (getCurrentRole env w).1 = PortDataRole.HOST := by
      rw [(getCurrentRole_spec env w).1, if_pos hr, ht]
      rfl
    exact (getPortStatusHelper_of_role env V1_0 w).2.2.1 hrole
  · intro hr
    have hrole : (getCurrentRole env w).1 = PortDataRole.NONE := by
      rw [(getCurrentRole_spec env w).1, if_neg hr]
    exact (getPortStatusHelper_of_role env V1_0 w).2.1 hrole
  · intro hv hr
    obtain ⟨h1, -, h3⟩ := switchRoleWrite_spec env roleDevice w rfl
    refine hdev _ hr ?_
    rw [switchRole_nodes, h3 (h1.2 hv)]
    rfl

/-- Witness of C8: a verified switch to DEVICE on a port in host mode,
followed by a query by a 1.0 listener, every call succeeding. -/
theorem getPortStatusHelper_report_witness :
    (getPortStatusHelper envAllOk [PortStatus_1_1.zero] true
        (switchRole envAllOk { mCallback_1_0 := some ListenerKind.base } "otg" roleDevice
          worldHost)).1 = Status.SUCCESS ∧
    (getPortStatusHelper envAllOk [PortStatus_1_1.zero] true
        (switchRole envAllOk { mCallback_1_0 := some ListenerKind.base } "otg" roleDevice
          worldHost)).2.1 = [portEntry PortDataRole.DEVICE PortPowerRole.SINK true] :=
  (getPortStatusHelper_report envAllOk { mCallback_1_0 := some ListenerKind.base } "otg" true
    worldHost).2.2.2 (by decide) (by decide)

/-- C9 (counterexample): the role DEVICE is requested with a registered 1.1
listener, the role write is verified, and the call to
`notifyRoleSwitchStatus` fails.  `switchRole` returns right after the failed
call: no status query follows the notification. -/
theorem switchRole_no_query_after_failed_notification :
    callsAfter worldHost.log.length
        (switchRole envNotifyFails { mCallback_1_0 := some ListenerKind.extended } "otg"
          roleDevice worldHost) =
      [Op.fopen MODE_CHANGE "w", Op.fputs "device" MODE_CHANGE, Op.fopen MODE_CHANGE "r",
       Op.getline MODE_CHANGE, Op.notifyRoleSwitchStatus "otg" roleDevice Status.SUCCESS] := by
  decide

/-- C9 (amended): for every `switchRole` request with a registered listener,
every role type and every switch outcome, the role-switch status is notified
once, and exactly one status query (with its one port-status notification)
follows if the notification call succeeded; if the notification call failed,
no call at all follows it. -/
theorem switchRole_query_iff_notified (env : Env) (u : UsbState) (k : ListenerKind)
    (portName : String) (newRole : PortRole) (w : World) (hcb : u.mCallback_1_0 = some k) :
    ∃ pre status post,
      callsAfter w.log.length (switchRole env u portName newRole w) =
        pre ++ Op.notifyRoleSwitchStatus portName newRole status :: post ∧
      roleSwitchNotifications pre = [] ∧ portStatusNotifications pre = 0 ∧
      roleSwitchNotifications post = [] ∧
      (env.ok (w.log.length + pre.length)
          (Op.notifyRoleSwitchStatus portName newRole status) = true →
        portStatusNotifications post = 1 ∧
        post = callsAfter (w.log.length + pre.length + 1)
          (queryPortStatus env u
            { nodes := (switchRoleWrite env newRole w).2.nodes,
              log := w.log ++ pre ++ [Op.notifyRoleSwitchStatus portName newRole status] })) ∧
      (env.ok (w.log.length + pre.length)
          (Op.notifyRoleSwitchStatus portName newRole status) = false → post = []) := by
  obtain ⟨ops, hl, hr, hp⟩ := switchRoleWrite_calls env newRole w
  have hlen : (switchRoleWrite env newRole w).2.log.length = w.log.length + ops.length := by
    rw [hl, List.length_append]
  have hw : (callListener env
      (Op.notifyRoleSwitchStatus portName newRole
        (if (switchRoleWrite env newRole w).1 then Status.SUCCESS else Status.ERROR))
      (switchRoleWrite env newRole w).2).2 =
      { nodes := (switchRoleWrite env newRole w).2.nodes,
        log := w.log ++ ops ++ [Op.notifyRoleSwitchStatus portName newRole
          (if (switchRoleWrite env newRole w).1 then Status.SUCCESS else Status.ERROR)] } := by
    simp [callListener, hl]
  by_cases hn : env.ok (switchRoleWrite env newRole w).2.log.length
      (Op.notifyRoleSwitchStatus portName newRole
        (if (switchRoleWrite env newRole w).1 then Status.SUCCESS else Status.ERROR)) = true
  · obtain ⟨-, qops, hq, hqr, hqp⟩ := queryPortStatus_calls env u k
      (callListener env
        (Op.notifyRoleSwitchStatus portName newRole
          (if (switchRoleWrite env newRole w).1 then Status.SUCCESS else Status.ERROR))
        (switchRoleWrite env newRole w).2).2 hcb
    refine ⟨ops, (if (switchRoleWrite env newRole w).1 then Status.SUCCESS else Status.ERROR), qops, ?_, hr, hp, hqr,
      fun _ => ⟨hqp, ?_⟩, fun h => ?_⟩
    · rw [switchRole_eq env u k portName newRole w hcb, if_pos hn]
      simp [callsAfter, hq, hl]
    · rw [← hw, callsAfter, hq]
      have hlen2 : w.log.length + ops.length + 1 =
          (callListener env
            (Op.notifyRoleSwitchStatus portName newRole
              (if (switchRoleWrite env newRole w).1 then Status.SUCCESS else Status.ERROR))
            (switchRoleWrite env newRole w).2).2.log.length := by
        rw [notifyCall_log, List.length_append, hlen, List.length_singleton]
      rw [hlen2, List.drop_left]
    · rw [← hlen, hn] at h; cases h
  · refine ⟨ops, (if (switchRoleWrite env newRole w).1 then Status.SUCCESS else Status.ERROR), [], ?_, hr, hp, rfl,
      fun h => ?_, fun _ => rfl⟩
    · rw [switchRole_eq env u k portName newRole w hcb, if_neg hn]
      simp [callsAfter, hl]
    · rw [← hlen] at h; exact absurd h hn

/-- Witness of C9 (amended): the role DEVICE is requested with a registered
1.1 listener and every call succeeds. -/
theorem switchRole_query_iff_notified_witness :
    ∃ pre status post,
      callsAfter worldHost.log.length
          (switchRole envAllOk { mCallback_1_0 := some ListenerKind.extended } "otg" roleDevice
            worldHost) =
        pre ++ Op.notifyRoleSwitchStatus "otg" roleDevice status :: post ∧
      roleSwitchNotifications pre = [] ∧ portStatusNotifications pre = 0 ∧
      roleSwitchNotifications post = [] ∧
      (envAllOk.ok (worldHost.log.length + pre.length)
          (Op.notifyRoleSwitchStatus "otg" roleDevice status) = true →
        portStatusNotifications post = 1 ∧
        post = callsAfter (worldHost.log.length + pre.length + 1)
          (queryPortStatus envAllOk { mCallback_1_0 := some ListenerKind.extended }
            { nodes := (switchRoleWrite envAllOk roleDevice worldHost).2.nodes,
              log := worldHost.log ++ pre ++
                [Op.notifyRoleSwitchStatus "otg" roleDevice status] })) ∧
      (envAllOk.ok (worldHost.log.length + pre.length)
          (Op.notifyRoleSwitchStatus "otg" roleDevice status) = false → post = []) :=
  switchRole_query_iff_notified envAllOk { mCallback_1_0 := some ListenerKind.extended }
    ListenerKind.extended "otg" roleDevice worldHost rfl

end Usb
